import Mathlib

/-!
Verification of the nêhiyawêwin syllabics roster builder.

This file is a shallow embedding of the roster-building pipeline of the
repository: the Unicode-name scanner, the shape classifier, the variant
resolver, the syllabic entity model with its derived attributes (SRO
spelling, vim digraph, qwerty mnemonic, dialect flags) and the roster
assembler.  The repository carries two parallel implementations of the
pipeline: the `libsyllabics` package (`legacy_roster.py` + `types.py`) and
the older standalone script `syllabics.py`; the two differ in their
consonant-final tables, in the variant-resolution markers, in the bare-TH
skip and in the qwerty mnemonic, so both are embedded where they differ.

Machine characters are modelled as their scalar values (Nat); a Unicode name
is modelled as its whitespace-split token list; Python exceptions
(KeyError, AttributeError, ValueError, AssertionError) are modelled with
`Except String`.
-/

/-- The phonological category of an accepted glyph: which of the three
concrete Python classes the entity is built with. -/
inductive Kind where
  | syllable
  | vowel
  | consonant
deriving DecidableEq, Repr

/-- A roster entity.  A Python `Syllabic` object is a character plus its
concrete class; every derived attribute re-reads the Unicode name, so the
entity is fully determined by its scalar value and its kind. -/
structure Syllabic where
  scalar : Nat
  kind : Kind
deriving DecidableEq, Repr

deriving instance DecidableEq for Except

/-- A deferred candidate in a shape-key group: the glyph (by scalar value)
together with its descriptor tokens minus the final shape token, exactly the
`(graph, tuple(desc[:-1]))` pairs the classifiers accumulate. -/
abbrev Cand := Nat × List String

/-- The external input oracle: the Unicode 14.0.0 name of every code point in
the two scanned ranges (0x1400-0x167F and 0x18B0-0x18F5), given as the
whitespace-separated tokens of the official character name, in the order the
build iterates the ranges. This models `unicodedata.name` composed with
`str.split`. -/
def ucdNames : List (Nat × List String) := [
  (0x1400, ["CANADIAN", "SYLLABICS", "HYPHEN"]),
  (0x1401, ["CANADIAN", "SYLLABICS", "E"]),
  (0x1402, ["CANADIAN", "SYLLABICS", "AAI"]),
  (0x1403, ["CANADIAN", "SYLLABICS", "I"]),
  (0x1404, ["CANADIAN", "SYLLABICS", "II"]),
  (0x1405, ["CANADIAN", "SYLLABICS", "O"]),
  (0x1406, ["CANADIAN", "SYLLABICS", "OO"]),
  (0x1407, ["CANADIAN", "SYLLABICS", "Y-CREE", "OO"]),
  (0x1408, ["CANADIAN", "SYLLABICS", "CARRIER", "EE"]),
  (0x1409, ["CANADIAN", "SYLLABICS", "CARRIER", "I"]),
  (0x140A, ["CANADIAN", "SYLLABICS", "A"]),
  (0x140B, ["CANADIAN", "SYLLABICS", "AA"]),
  (0x140C, ["CANADIAN", "SYLLABICS", "WE"]),
  (0x140D, ["CANADIAN", "SYLLABICS", "WEST-CREE", "WE"]),
  (0x140E, ["CANADIAN", "SYLLABICS", "WI"]),
  (0x140F, ["CANADIAN", "SYLLABICS", "WEST-CREE", "WI"]),
  (0x1410, ["CANADIAN", "SYLLABICS", "WII"]),
  (0x1411, ["CANADIAN", "SYLLABICS", "WEST-CREE", "WII"]),
  (0x1412, ["CANADIAN", "SYLLABICS", "WO"]),
  (0x1413, ["CANADIAN", "SYLLABICS", "WEST-CREE", "WO"]),
  (0x1414, ["CANADIAN", "SYLLABICS", "WOO"]),
  (0x1415, ["CANADIAN", "SYLLABICS", "WEST-CREE", "WOO"]),
  (0x1416, ["CANADIAN", "SYLLABICS", "NASKAPI", "WOO"]),
  (0x1417, ["CANADIAN", "SYLLABICS", "WA"]),
  (0x1418, ["CANADIAN", "SYLLABICS", "WEST-CREE", "WA"]),
  (0x1419, ["CANADIAN", "SYLLABICS", "WAA"]),
  (0x141A, ["CANADIAN", "SYLLABICS", "WEST-CREE", "WAA"]),
  (0x141B, ["CANADIAN", "SYLLABICS", "NASKAPI", "WAA"]),
  (0x141C, ["CANADIAN", "SYLLABICS", "AI"]),
  (0x141D, ["CANADIAN", "SYLLABICS", "Y-CREE", "W"]),
  (0x141E, ["CANADIAN", "SYLLABICS", "GLOTTAL", "STOP"]),
  (0x141F, ["CANADIAN", "SYLLABICS", "FINAL", "ACUTE"]),
  (0x1420, ["CANADIAN", "SYLLABICS", "FINAL", "GRAVE"]),
  (0x1421, ["CANADIAN", "SYLLABICS", "FINAL", "BOTTOM", "HALF", "RING"]),
  (0x1422, ["CANADIAN", "SYLLABICS", "FINAL", "TOP", "HALF", "RING"]),
  (0x1423, ["CANADIAN", "SYLLABICS", "FINAL", "RIGHT", "HALF", "RING"]),
  (0x1424, ["CANADIAN", "SYLLABICS", "FINAL", "RING"]),
  (0x1425, ["CANADIAN", "SYLLABICS", "FINAL", "DOUBLE", "ACUTE"]),
  (0x1426, ["CANADIAN", "SYLLABICS", "FINAL", "DOUBLE", "SHORT", "VERTICAL", "STROKES"]),
  (0x1427, ["CANADIAN", "SYLLABICS", "FINAL", "MIDDLE", "DOT"]),
  (0x1428, ["CANADIAN", "SYLLABICS", "FINAL", "SHORT", "HORIZONTAL", "STROKE"]),
  (0x1429, ["CANADIAN", "SYLLABICS", "FINAL", "PLUS"]),
  (0x142A, ["CANADIAN", "SYLLABICS", "FINAL", "DOWN", "TACK"]),
  (0x142B, ["CANADIAN", "SYLLABICS", "EN"]),
  (0x142C, ["CANADIAN", "SYLLABICS", "IN"]),
  (0x142D, ["CANADIAN", "SYLLABICS", "ON"]),
  (0x142E, ["CANADIAN", "SYLLABICS", "AN"]),
  (0x142F, ["CANADIAN", "SYLLABICS", "PE"]),
  (0x1430, ["CANADIAN", "SYLLABICS", "PAAI"]),
  (0x1431, ["CANADIAN", "SYLLABICS", "PI"]),
  (0x1432, ["CANADIAN", "SYLLABICS", "PII"]),
  (0x1433, ["CANADIAN", "SYLLABICS", "PO"]),
  (0x1434, ["CANADIAN", "SYLLABICS", "POO"]),
  (0x1435, ["CANADIAN", "SYLLABICS", "Y-CREE", "POO"]),
  (0x1436, ["CANADIAN", "SYLLABICS", "CARRIER", "HEE"]),
  (0x1437, ["CANADIAN", "SYLLABICS", "CARRIER", "HI"]),
  (0x1438, ["CANADIAN", "SYLLABICS", "PA"]),
  (0x1439, ["CANADIAN", "SYLLABICS", "PAA"]),
  (0x143A, ["CANADIAN", "SYLLABICS", "PWE"]),
  (0x143B, ["CANADIAN", "SYLLABICS", "WEST-CREE", "PWE"]),
  (0x143C, ["CANADIAN", "SYLLABICS", "PWI"]),
  (0x143D, ["CANADIAN", "SYLLABICS", "WEST-CREE", "PWI"]),
  (0x143E, ["CANADIAN", "SYLLABICS", "PWII"]),
  (0x143F, ["CANADIAN", "SYLLABICS", "WEST-CREE", "PWII"]),
  (0x1440, ["CANADIAN", "SYLLABICS", "PWO"]),
  (0x1441, ["CANADIAN", "SYLLABICS", "WEST-CREE", "PWO"]),
  (0x1442, ["CANADIAN", "SYLLABICS", "PWOO"]),
  (0x1443, ["CANADIAN", "SYLLABICS", "WEST-CREE", "PWOO"]),
  (0x1444, ["CANADIAN", "SYLLABICS", "PWA"]),
  (0x1445, ["CANADIAN", "SYLLABICS", "WEST-CREE", "PWA"]),
  (0x1446, ["CANADIAN", "SYLLABICS", "PWAA"]),
  (0x1447, ["CANADIAN", "SYLLABICS", "WEST-CREE", "PWAA"]),
  (0x1448, ["CANADIAN", "SYLLABICS", "Y-CREE", "PWAA"]),
  (0x1449, ["CANADIAN", "SYLLABICS", "P"]),
  (0x144A, ["CANADIAN", "SYLLABICS", "WEST-CREE", "P"]),
  (0x144B, ["CANADIAN", "SYLLABICS", "CARRIER", "H"]),
  (0x144C, ["CANADIAN", "SYLLABICS", "TE"]),
  (0x144D, ["CANADIAN", "SYLLABICS", "TAAI"]),
  (0x144E, ["CANADIAN", "SYLLABICS", "TI"]),
  (0x144F, ["CANADIAN", "SYLLABICS", "TII"]),
  (0x1450, ["CANADIAN", "SYLLABICS", "TO"]),
  (0x1451, ["CANADIAN", "SYLLABICS", "TOO"]),
  (0x1452, ["CANADIAN", "SYLLABICS", "Y-CREE", "TOO"]),
  (0x1453, ["CANADIAN", "SYLLABICS", "CARRIER", "DEE"]),
  (0x1454, ["CANADIAN", "SYLLABICS", "CARRIER", "DI"]),
  (0x1455, ["CANADIAN", "SYLLABICS", "TA"]),
  (0x1456, ["CANADIAN", "SYLLABICS", "TAA"]),
  (0x1457, ["CANADIAN", "SYLLABICS", "TWE"]),
  (0x1458, ["CANADIAN", "SYLLABICS", "WEST-CREE", "TWE"]),
  (0x1459, ["CANADIAN", "SYLLABICS", "TWI"]),
  (0x145A, ["CANADIAN", "SYLLABICS", "WEST-CREE", "TWI"]),
  (0x145B, ["CANADIAN", "SYLLABICS", "TWII"]),
  (0x145C, ["CANADIAN", "SYLLABICS", "WEST-CREE", "TWII"]),
  (0x145D, ["CANADIAN", "SYLLABICS", "TWO"]),
  (0x145E, ["CANADIAN", "SYLLABICS", "WEST-CREE", "TWO"]),
  (0x145F, ["CANADIAN", "SYLLABICS", "TWOO"]),
  (0x1460, ["CANADIAN", "SYLLABICS", "WEST-CREE", "TWOO"]),
  (0x1461, ["CANADIAN", "SYLLABICS", "TWA"]),
  (0x1462, ["CANADIAN", "SYLLABICS", "WEST-CREE", "TWA"]),
  (0x1463, ["CANADIAN", "SYLLABICS", "TWAA"]),
  (0x1464, ["CANADIAN", "SYLLABICS", "WEST-CREE", "TWAA"]),
  (0x1465, ["CANADIAN", "SYLLABICS", "NASKAPI", "TWAA"]),
  (0x1466, ["CANADIAN", "SYLLABICS", "T"]),
  (0x1467, ["CANADIAN", "SYLLABICS", "TTE"]),
  (0x1468, ["CANADIAN", "SYLLABICS", "TTI"]),
  (0x1469, ["CANADIAN", "SYLLABICS", "TTO"]),
  (0x146A, ["CANADIAN", "SYLLABICS", "TTA"]),
  (0x146B, ["CANADIAN", "SYLLABICS", "KE"]),
  (0x146C, ["CANADIAN", "SYLLABICS", "KAAI"]),
  (0x146D, ["CANADIAN", "SYLLABICS", "KI"]),
  (0x146E, ["CANADIAN", "SYLLABICS", "KII"]),
  (0x146F, ["CANADIAN", "SYLLABICS", "KO"]),
  (0x1470, ["CANADIAN", "SYLLABICS", "KOO"]),
  (0x1471, ["CANADIAN", "SYLLABICS", "Y-CREE", "KOO"]),
  (0x1472, ["CANADIAN", "SYLLABICS", "KA"]),
  (0x1473, ["CANADIAN", "SYLLABICS", "KAA"]),
  (0x1474, ["CANADIAN", "SYLLABICS", "KWE"]),
  (0x1475, ["CANADIAN", "SYLLABICS", "WEST-CREE", "KWE"]),
  (0x1476, ["CANADIAN", "SYLLABICS", "KWI"]),
  (0x1477, ["CANADIAN", "SYLLABICS", "WEST-CREE", "KWI"]),
  (0x1478, ["CANADIAN", "SYLLABICS", "KWII"]),
  (0x1479, ["CANADIAN", "SYLLABICS", "WEST-CREE", "KWII"]),
  (0x147A, ["CANADIAN", "SYLLABICS", "KWO"]),
  (0x147B, ["CANADIAN", "SYLLABICS", "WEST-CREE", "KWO"]),
  (0x147C, ["CANADIAN", "SYLLABICS", "KWOO"]),
  (0x147D, ["CANADIAN", "SYLLABICS", "WEST-CREE", "KWOO"]),
  (0x147E, ["CANADIAN", "SYLLABICS", "KWA"]),
  (0x147F, ["CANADIAN", "SYLLABICS", "WEST-CREE", "KWA"]),
  (0x1480, ["CANADIAN", "SYLLABICS", "KWAA"]),
  (0x1481, ["CANADIAN", "SYLLABICS", "WEST-CREE", "KWAA"]),
  (0x1482, ["CANADIAN", "SYLLABICS", "NASKAPI", "KWAA"]),
  (0x1483, ["CANADIAN", "SYLLABICS", "K"]),
  (0x1484, ["CANADIAN", "SYLLABICS", "KW"]),
  (0x1485, ["CANADIAN", "SYLLABICS", "SOUTH-SLAVEY", "KEH"]),
  (0x1486, ["CANADIAN", "SYLLABICS", "SOUTH-SLAVEY", "KIH"]),
  (0x1487, ["CANADIAN", "SYLLABICS", "SOUTH-SLAVEY", "KOH"]),
  (0x1488, ["CANADIAN", "SYLLABICS", "SOUTH-SLAVEY", "KAH"]),
  (0x1489, ["CANADIAN", "SYLLABICS", "CE"]),
  (0x148A, ["CANADIAN", "SYLLABICS", "CAAI"]),
  (0x148B, ["CANADIAN", "SYLLABICS", "CI"]),
  (0x148C, ["CANADIAN", "SYLLABICS", "CII"]),
  (0x148D, ["CANADIAN", "SYLLABICS", "CO"]),
  (0x148E, ["CANADIAN", "SYLLABICS", "COO"]),
  (0x148F, ["CANADIAN", "SYLLABICS", "Y-CREE", "COO"]),
  (0x1490, ["CANADIAN", "SYLLABICS", "CA"]),
  (0x1491, ["CANADIAN", "SYLLABICS", "CAA"]),
  (0x1492, ["CANADIAN", "SYLLABICS", "CWE"]),
  (0x1493, ["CANADIAN", "SYLLABICS", "WEST-CREE", "CWE"]),
  (0x1494, ["CANADIAN", "SYLLABICS", "CWI"]),
  (0x1495, ["CANADIAN", "SYLLABICS", "WEST-CREE", "CWI"]),
  (0x1496, ["CANADIAN", "SYLLABICS", "CWII"]),
  (0x1497, ["CANADIAN", "SYLLABICS", "WEST-CREE", "CWII"]),
  (0x1498, ["CANADIAN", "SYLLABICS", "CWO"]),
  (0x1499, ["CANADIAN", "SYLLABICS", "WEST-CREE", "CWO"]),
  (0x149A, ["CANADIAN", "SYLLABICS", "CWOO"]),
  (0x149B, ["CANADIAN", "SYLLABICS", "WEST-CREE", "CWOO"]),
  (0x149C, ["CANADIAN", "SYLLABICS", "CWA"]),
  (0x149D, ["CANADIAN", "SYLLABICS", "WEST-CREE", "CWA"]),
  (0x149E, ["CANADIAN", "SYLLABICS", "CWAA"]),
  (0x149F, ["CANADIAN", "SYLLABICS", "WEST-CREE", "CWAA"]),
  (0x14A0, ["CANADIAN", "SYLLABICS", "NASKAPI", "CWAA"]),
  (0x14A1, ["CANADIAN", "SYLLABICS", "C"]),
  (0x14A2, ["CANADIAN", "SYLLABICS", "SAYISI", "TH"]),
  (0x14A3, ["CANADIAN", "SYLLABICS", "ME"]),
  (0x14A4, ["CANADIAN", "SYLLABICS", "MAAI"]),
  (0x14A5, ["CANADIAN", "SYLLABICS", "MI"]),
  (0x14A6, ["CANADIAN", "SYLLABICS", "MII"]),
  (0x14A7, ["CANADIAN", "SYLLABICS", "MO"]),
  (0x14A8, ["CANADIAN", "SYLLABICS", "MOO"]),
  (0x14A9, ["CANADIAN", "SYLLABICS", "Y-CREE", "MOO"]),
  (0x14AA, ["CANADIAN", "SYLLABICS", "MA"]),
  (0x14AB, ["CANADIAN", "SYLLABICS", "MAA"]),
  (0x14AC, ["CANADIAN", "SYLLABICS", "MWE"]),
  (0x14AD, ["CANADIAN", "SYLLABICS", "WEST-CREE", "MWE"]),
  (0x14AE, ["CANADIAN", "SYLLABICS", "MWI"]),
  (0x14AF, ["CANADIAN", "SYLLABICS", "WEST-CREE", "MWI"]),
  (0x14B0, ["CANADIAN", "SYLLABICS", "MWII"]),
  (0x14B1, ["CANADIAN", "SYLLABICS", "WEST-CREE", "MWII"]),
  (0x14B2, ["CANADIAN", "SYLLABICS", "MWO"]),
  (0x14B3, ["CANADIAN", "SYLLABICS", "WEST-CREE", "MWO"]),
  (0x14B4, ["CANADIAN", "SYLLABICS", "MWOO"]),
  (0x14B5, ["CANADIAN", "SYLLABICS", "WEST-CREE", "MWOO"]),
  (0x14B6, ["CANADIAN", "SYLLABICS", "MWA"]),
  (0x14B7, ["CANADIAN", "SYLLABICS", "WEST-CREE", "MWA"]),
  (0x14B8, ["CANADIAN", "SYLLABICS", "MWAA"]),
  (0x14B9, ["CANADIAN", "SYLLABICS", "WEST-CREE", "MWAA"]),
  (0x14BA, ["CANADIAN", "SYLLABICS", "NASKAPI", "MWAA"]),
  (0x14BB, ["CANADIAN", "SYLLABICS", "M"]),
  (0x14BC, ["CANADIAN", "SYLLABICS", "WEST-CREE", "M"]),
  (0x14BD, ["CANADIAN", "SYLLABICS", "MH"]),
  (0x14BE, ["CANADIAN", "SYLLABICS", "ATHAPASCAN", "M"]),
  (0x14BF, ["CANADIAN", "SYLLABICS", "SAYISI", "M"]),
  (0x14C0, ["CANADIAN", "SYLLABICS", "NE"]),
  (0x14C1, ["CANADIAN", "SYLLABICS", "NAAI"]),
  (0x14C2, ["CANADIAN", "SYLLABICS", "NI"]),
  (0x14C3, ["CANADIAN", "SYLLABICS", "NII"]),
  (0x14C4, ["CANADIAN", "SYLLABICS", "NO"]),
  (0x14C5, ["CANADIAN", "SYLLABICS", "NOO"]),
  (0x14C6, ["CANADIAN", "SYLLABICS", "Y-CREE", "NOO"]),
  (0x14C7, ["CANADIAN", "SYLLABICS", "NA"]),
  (0x14C8, ["CANADIAN", "SYLLABICS", "NAA"]),
  (0x14C9, ["CANADIAN", "SYLLABICS", "NWE"]),
  (0x14CA, ["CANADIAN", "SYLLABICS", "WEST-CREE", "NWE"]),
  (0x14CB, ["CANADIAN", "SYLLABICS", "NWA"]),
  (0x14CC, ["CANADIAN", "SYLLABICS", "WEST-CREE", "NWA"]),
  (0x14CD, ["CANADIAN", "SYLLABICS", "NWAA"]),
  (0x14CE, ["CANADIAN", "SYLLABICS", "WEST-CREE", "NWAA"]),
  (0x14CF, ["CANADIAN", "SYLLABICS", "NASKAPI", "NWAA"]),
  (0x14D0, ["CANADIAN", "SYLLABICS", "N"]),
  (0x14D1, ["CANADIAN", "SYLLABICS", "CARRIER", "NG"]),
  (0x14D2, ["CANADIAN", "SYLLABICS", "NH"]),
  (0x14D3, ["CANADIAN", "SYLLABICS", "LE"]),
  (0x14D4, ["CANADIAN", "SYLLABICS", "LAAI"]),
  (0x14D5, ["CANADIAN", "SYLLABICS", "LI"]),
  (0x14D6, ["CANADIAN", "SYLLABICS", "LII"]),
  (0x14D7, ["CANADIAN", "SYLLABICS", "LO"]),
  (0x14D8, ["CANADIAN", "SYLLABICS", "LOO"]),
  (0x14D9, ["CANADIAN", "SYLLABICS", "Y-CREE", "LOO"]),
  (0x14DA, ["CANADIAN", "SYLLABICS", "LA"]),
  (0x14DB, ["CANADIAN", "SYLLABICS", "LAA"]),
  (0x14DC, ["CANADIAN", "SYLLABICS", "LWE"]),
  (0x14DD, ["CANADIAN", "SYLLABICS", "WEST-CREE", "LWE"]),
  (0x14DE, ["CANADIAN", "SYLLABICS", "LWI"]),
  (0x14DF, ["CANADIAN", "SYLLABICS", "WEST-CREE", "LWI"]),
  (0x14E0, ["CANADIAN", "SYLLABICS", "LWII"]),
  (0x14E1, ["CANADIAN", "SYLLABICS", "WEST-CREE", "LWII"]),
  (0x14E2, ["CANADIAN", "SYLLABICS", "LWO"]),
  (0x14E3, ["CANADIAN", "SYLLABICS", "WEST-CREE", "LWO"]),
  (0x14E4, ["CANADIAN", "SYLLABICS", "LWOO"]),
  (0x14E5, ["CANADIAN", "SYLLABICS", "WEST-CREE", "LWOO"]),
  (0x14E6, ["CANADIAN", "SYLLABICS", "LWA"]),
  (0x14E7, ["CANADIAN", "SYLLABICS", "WEST-CREE", "LWA"]),
  (0x14E8, ["CANADIAN", "SYLLABICS", "LWAA"]),
  (0x14E9, ["CANADIAN", "SYLLABICS", "WEST-CREE", "LWAA"]),
  (0x14EA, ["CANADIAN", "SYLLABICS", "L"]),
  (0x14EB, ["CANADIAN", "SYLLABICS", "WEST-CREE", "L"]),
  (0x14EC, ["CANADIAN", "SYLLABICS", "MEDIAL", "L"]),
  (0x14ED, ["CANADIAN", "SYLLABICS", "SE"]),
  (0x14EE, ["CANADIAN", "SYLLABICS", "SAAI"]),
  (0x14EF, ["CANADIAN", "SYLLABICS", "SI"]),
  (0x14F0, ["CANADIAN", "SYLLABICS", "SII"]),
  (0x14F1, ["CANADIAN", "SYLLABICS", "SO"]),
  (0x14F2, ["CANADIAN", "SYLLABICS", "SOO"]),
  (0x14F3, ["CANADIAN", "SYLLABICS", "Y-CREE", "SOO"]),
  (0x14F4, ["CANADIAN", "SYLLABICS", "SA"]),
  (0x14F5, ["CANADIAN", "SYLLABICS", "SAA"]),
  (0x14F6, ["CANADIAN", "SYLLABICS", "SWE"]),
  (0x14F7, ["CANADIAN", "SYLLABICS", "WEST-CREE", "SWE"]),
  (0x14F8, ["CANADIAN", "SYLLABICS", "SWI"]),
  (0x14F9, ["CANADIAN", "SYLLABICS", "WEST-CREE", "SWI"]),
  (0x14FA, ["CANADIAN", "SYLLABICS", "SWII"]),
  (0x14FB, ["CANADIAN", "SYLLABICS", "WEST-CREE", "SWII"]),
  (0x14FC, ["CANADIAN", "SYLLABICS", "SWO"]),
  (0x14FD, ["CANADIAN", "SYLLABICS", "WEST-CREE", "SWO"]),
  (0x14FE, ["CANADIAN", "SYLLABICS", "SWOO"]),
  (0x14FF, ["CANADIAN", "SYLLABICS", "WEST-CREE", "SWOO"]),
  (0x1500, ["CANADIAN", "SYLLABICS", "SWA"]),
  (0x1501, ["CANADIAN", "SYLLABICS", "WEST-CREE", "SWA"]),
  (0x1502, ["CANADIAN", "SYLLABICS", "SWAA"]),
  (0x1503, ["CANADIAN", "SYLLABICS", "WEST-CREE", "SWAA"]),
  (0x1504, ["CANADIAN", "SYLLABICS", "NASKAPI", "SWAA"]),
  (0x1505, ["CANADIAN", "SYLLABICS", "S"]),
  (0x1506, ["CANADIAN", "SYLLABICS", "ATHAPASCAN", "S"]),
  (0x1507, ["CANADIAN", "SYLLABICS", "SW"]),
  (0x1508, ["CANADIAN", "SYLLABICS", "BLACKFOOT", "S"]),
  (0x1509, ["CANADIAN", "SYLLABICS", "MOOSE-CREE", "SK"]),
  (0x150A, ["CANADIAN", "SYLLABICS", "NASKAPI", "SKW"]),
  (0x150B, ["CANADIAN", "SYLLABICS", "NASKAPI", "S-W"]),
  (0x150C, ["CANADIAN", "SYLLABICS", "NASKAPI", "SPWA"]),
  (0x150D, ["CANADIAN", "SYLLABICS", "NASKAPI", "STWA"]),
  (0x150E, ["CANADIAN", "SYLLABICS", "NASKAPI", "SKWA"]),
  (0x150F, ["CANADIAN", "SYLLABICS", "NASKAPI", "SCWA"]),
  (0x1510, ["CANADIAN", "SYLLABICS", "SHE"]),
  (0x1511, ["CANADIAN", "SYLLABICS", "SHI"]),
  (0x1512, ["CANADIAN", "SYLLABICS", "SHII"]),
  (0x1513, ["CANADIAN", "SYLLABICS", "SHO"]),
  (0x1514, ["CANADIAN", "SYLLABICS", "SHOO"]),
  (0x1515, ["CANADIAN", "SYLLABICS", "SHA"]),
  (0x1516, ["CANADIAN", "SYLLABICS", "SHAA"]),
  (0x1517, ["CANADIAN", "SYLLABICS", "SHWE"]),
  (0x1518, ["CANADIAN", "SYLLABICS", "WEST-CREE", "SHWE"]),
  (0x1519, ["CANADIAN", "SYLLABICS", "SHWI"]),
  (0x151A, ["CANADIAN", "SYLLABICS", "WEST-CREE", "SHWI"]),
  (0x151B, ["CANADIAN", "SYLLABICS", "SHWII"]),
  (0x151C, ["CANADIAN", "SYLLABICS", "WEST-CREE", "SHWII"]),
  (0x151D, ["CANADIAN", "SYLLABICS", "SHWO"]),
  (0x151E, ["CANADIAN", "SYLLABICS", "WEST-CREE", "SHWO"]),
  (0x151F, ["CANADIAN", "SYLLABICS", "SHWOO"]),
  (0x1520, ["CANADIAN", "SYLLABICS", "WEST-CREE", "SHWOO"]),
  (0x1521, ["CANADIAN", "SYLLABICS", "SHWA"]),
  (0x1522, ["CANADIAN", "SYLLABICS", "WEST-CREE", "SHWA"]),
  (0x1523, ["CANADIAN", "SYLLABICS", "SHWAA"]),
  (0x1524, ["CANADIAN", "SYLLABICS", "WEST-CREE", "SHWAA"]),
  (0x1525, ["CANADIAN", "SYLLABICS", "SH"]),
  (0x1526, ["CANADIAN", "SYLLABICS", "YE"]),
  (0x1527, ["CANADIAN", "SYLLABICS", "YAAI"]),
  (0x1528, ["CANADIAN", "SYLLABICS", "YI"]),
  (0x1529, ["CANADIAN", "SYLLABICS", "YII"]),
  (0x152A, ["CANADIAN", "SYLLABICS", "YO"]),
  (0x152B, ["CANADIAN", "SYLLABICS", "YOO"]),
  (0x152C, ["CANADIAN", "SYLLABICS", "Y-CREE", "YOO"]),
  (0x152D, ["CANADIAN", "SYLLABICS", "YA"]),
  (0x152E, ["CANADIAN", "SYLLABICS", "YAA"]),
  (0x152F, ["CANADIAN", "SYLLABICS", "YWE"]),
  (0x1530, ["CANADIAN", "SYLLABICS", "WEST-CREE", "YWE"]),
  (0x1531, ["CANADIAN", "SYLLABICS", "YWI"]),
  (0x1532, ["CANADIAN", "SYLLABICS", "WEST-CREE", "YWI"]),
  (0x1533, ["CANADIAN", "SYLLABICS", "YWII"]),
  (0x1534, ["CANADIAN", "SYLLABICS", "WEST-CREE", "YWII"]),
  (0x1535, ["CANADIAN", "SYLLABICS", "YWO"]),
  (0x1536, ["CANADIAN", "SYLLABICS", "WEST-CREE", "YWO"]),
  (0x1537, ["CANADIAN", "SYLLABICS", "YWOO"]),
  (0x1538, ["CANADIAN", "SYLLABICS", "WEST-CREE", "YWOO"]),
  (0x1539, ["CANADIAN", "SYLLABICS", "YWA"]),
  (0x153A, ["CANADIAN", "SYLLABICS", "WEST-CREE", "YWA"]),
  (0x153B, ["CANADIAN", "SYLLABICS", "YWAA"]),
  (0x153C, ["CANADIAN", "SYLLABICS", "WEST-CREE", "YWAA"]),
  (0x153D, ["CANADIAN", "SYLLABICS", "NASKAPI", "YWAA"]),
  (0x153E, ["CANADIAN", "SYLLABICS", "Y"]),
  (0x153F, ["CANADIAN", "SYLLABICS", "BIBLE-CREE", "Y"]),
  (0x1540, ["CANADIAN", "SYLLABICS", "WEST-CREE", "Y"]),
  (0x1541, ["CANADIAN", "SYLLABICS", "SAYISI", "YI"]),
  (0x1542, ["CANADIAN", "SYLLABICS", "RE"]),
  (0x1543, ["CANADIAN", "SYLLABICS", "R-CREE", "RE"]),
  (0x1544, ["CANADIAN", "SYLLABICS", "WEST-CREE", "LE"]),
  (0x1545, ["CANADIAN", "SYLLABICS", "RAAI"]),
  (0x1546, ["CANADIAN", "SYLLABICS", "RI"]),
  (0x1547, ["CANADIAN", "SYLLABICS", "RII"]),
  (0x1548, ["CANADIAN", "SYLLABICS", "RO"]),
  (0x1549, ["CANADIAN", "SYLLABICS", "ROO"]),
  (0x154A, ["CANADIAN", "SYLLABICS", "WEST-CREE", "LO"]),
  (0x154B, ["CANADIAN", "SYLLABICS", "RA"]),
  (0x154C, ["CANADIAN", "SYLLABICS", "RAA"]),
  (0x154D, ["CANADIAN", "SYLLABICS", "WEST-CREE", "LA"]),
  (0x154E, ["CANADIAN", "SYLLABICS", "RWAA"]),
  (0x154F, ["CANADIAN", "SYLLABICS", "WEST-CREE", "RWAA"]),
  (0x1550, ["CANADIAN", "SYLLABICS", "R"]),
  (0x1551, ["CANADIAN", "SYLLABICS", "WEST-CREE", "R"]),
  (0x1552, ["CANADIAN", "SYLLABICS", "MEDIAL", "R"]),
  (0x1553, ["CANADIAN", "SYLLABICS", "FE"]),
  (0x1554, ["CANADIAN", "SYLLABICS", "FAAI"]),
  (0x1555, ["CANADIAN", "SYLLABICS", "FI"]),
  (0x1556, ["CANADIAN", "SYLLABICS", "FII"]),
  (0x1557, ["CANADIAN", "SYLLABICS", "FO"]),
  (0x1558, ["CANADIAN", "SYLLABICS", "FOO"]),
  (0x1559, ["CANADIAN", "SYLLABICS", "FA"]),
  (0x155A, ["CANADIAN", "SYLLABICS", "FAA"]),
  (0x155B, ["CANADIAN", "SYLLABICS", "FWAA"]),
  (0x155C, ["CANADIAN", "SYLLABICS", "WEST-CREE", "FWAA"]),
  (0x155D, ["CANADIAN", "SYLLABICS", "F"]),
  (0x155E, ["CANADIAN", "SYLLABICS", "THE"]),
  (0x155F, ["CANADIAN", "SYLLABICS", "N-CREE", "THE"]),
  (0x1560, ["CANADIAN", "SYLLABICS", "THI"]),
  (0x1561, ["CANADIAN", "SYLLABICS", "N-CREE", "THI"]),
  (0x1562, ["CANADIAN", "SYLLABICS", "THII"]),
  (0x1563, ["CANADIAN", "SYLLABICS", "N-CREE", "THII"]),
  (0x1564, ["CANADIAN", "SYLLABICS", "THO"]),
  (0x1565, ["CANADIAN", "SYLLABICS", "THOO"]),
  (0x1566, ["CANADIAN", "SYLLABICS", "THA"]),
  (0x1567, ["CANADIAN", "SYLLABICS", "THAA"]),
  (0x1568, ["CANADIAN", "SYLLABICS", "THWAA"]),
  (0x1569, ["CANADIAN", "SYLLABICS", "WEST-CREE", "THWAA"]),
  (0x156A, ["CANADIAN", "SYLLABICS", "TH"]),
  (0x156B, ["CANADIAN", "SYLLABICS", "TTHE"]),
  (0x156C, ["CANADIAN", "SYLLABICS", "TTHI"]),
  (0x156D, ["CANADIAN", "SYLLABICS", "TTHO"]),
  (0x156E, ["CANADIAN", "SYLLABICS", "TTHA"]),
  (0x156F, ["CANADIAN", "SYLLABICS", "TTH"]),
  (0x1570, ["CANADIAN", "SYLLABICS", "TYE"]),
  (0x1571, ["CANADIAN", "SYLLABICS", "TYI"]),
  (0x1572, ["CANADIAN", "SYLLABICS", "TYO"]),
  (0x1573, ["CANADIAN", "SYLLABICS", "TYA"]),
  (0x1574, ["CANADIAN", "SYLLABICS", "NUNAVIK", "HE"]),
  (0x1575, ["CANADIAN", "SYLLABICS", "NUNAVIK", "HI"]),
  (0x1576, ["CANADIAN", "SYLLABICS", "NUNAVIK", "HII"]),
  (0x1577, ["CANADIAN", "SYLLABICS", "NUNAVIK", "HO"]),
  (0x1578, ["CANADIAN", "SYLLABICS", "NUNAVIK", "HOO"]),
  (0x1579, ["CANADIAN", "SYLLABICS", "NUNAVIK", "HA"]),
  (0x157A, ["CANADIAN", "SYLLABICS", "NUNAVIK", "HAA"]),
  (0x157B, ["CANADIAN", "SYLLABICS", "NUNAVIK", "H"]),
  (0x157C, ["CANADIAN", "SYLLABICS", "NUNAVUT", "H"]),
  (0x157D, ["CANADIAN", "SYLLABICS", "HK"]),
  (0x157E, ["CANADIAN", "SYLLABICS", "QAAI"]),
  (0x157F, ["CANADIAN", "SYLLABICS", "QI"]),
  (0x1580, ["CANADIAN", "SYLLABICS", "QII"]),
  (0x1581, ["CANADIAN", "SYLLABICS", "QO"]),
  (0x1582, ["CANADIAN", "SYLLABICS", "QOO"]),
  (0x1583, ["CANADIAN", "SYLLABICS", "QA"]),
  (0x1584, ["CANADIAN", "SYLLABICS", "QAA"]),
  (0x1585, ["CANADIAN", "SYLLABICS", "Q"]),
  (0x1586, ["CANADIAN", "SYLLABICS", "TLHE"]),
  (0x1587, ["CANADIAN", "SYLLABICS", "TLHI"]),
  (0x1588, ["CANADIAN", "SYLLABICS", "TLHO"]),
  (0x1589, ["CANADIAN", "SYLLABICS", "TLHA"]),
  (0x158A, ["CANADIAN", "SYLLABICS", "WEST-CREE", "RE"]),
  (0x158B, ["CANADIAN", "SYLLABICS", "WEST-CREE", "RI"]),
  (0x158C, ["CANADIAN", "SYLLABICS", "WEST-CREE", "RO"]),
  (0x158D, ["CANADIAN", "SYLLABICS", "WEST-CREE", "RA"]),
  (0x158E, ["CANADIAN", "SYLLABICS", "NGAAI"]),
  (0x158F, ["CANADIAN", "SYLLABICS", "NGI"]),
  (0x1590, ["CANADIAN", "SYLLABICS", "NGII"]),
  (0x1591, ["CANADIAN", "SYLLABICS", "NGO"]),
  (0x1592, ["CANADIAN", "SYLLABICS", "NGOO"]),
  (0x1593, ["CANADIAN", "SYLLABICS", "NGA"]),
  (0x1594, ["CANADIAN", "SYLLABICS", "NGAA"]),
  (0x1595, ["CANADIAN", "SYLLABICS", "NG"]),
  (0x1596, ["CANADIAN", "SYLLABICS", "NNG"]),
  (0x1597, ["CANADIAN", "SYLLABICS", "SAYISI", "SHE"]),
  (0x1598, ["CANADIAN", "SYLLABICS", "SAYISI", "SHI"]),
  (0x1599, ["CANADIAN", "SYLLABICS", "SAYISI", "SHO"]),
  (0x159A, ["CANADIAN", "SYLLABICS", "SAYISI", "SHA"]),
  (0x159B, ["CANADIAN", "SYLLABICS", "WOODS-CREE", "THE"]),
  (0x159C, ["CANADIAN", "SYLLABICS", "WOODS-CREE", "THI"]),
  (0x159D, ["CANADIAN", "SYLLABICS", "WOODS-CREE", "THO"]),
  (0x159E, ["CANADIAN", "SYLLABICS", "WOODS-CREE", "THA"]),
  (0x159F, ["CANADIAN", "SYLLABICS", "WOODS-CREE", "TH"]),
  (0x15A0, ["CANADIAN", "SYLLABICS", "LHI"]),
  (0x15A1, ["CANADIAN", "SYLLABICS", "LHII"]),
  (0x15A2, ["CANADIAN", "SYLLABICS", "LHO"]),
  (0x15A3, ["CANADIAN", "SYLLABICS", "LHOO"]),
  (0x15A4, ["CANADIAN", "SYLLABICS", "LHA"]),
  (0x15A5, ["CANADIAN", "SYLLABICS", "LHAA"]),
  (0x15A6, ["CANADIAN", "SYLLABICS", "LH"]),
  (0x15A7, ["CANADIAN", "SYLLABICS", "TH-CREE", "THE"]),
  (0x15A8, ["CANADIAN", "SYLLABICS", "TH-CREE", "THI"]),
  (0x15A9, ["CANADIAN", "SYLLABICS", "TH-CREE", "THII"]),
  (0x15AA, ["CANADIAN", "SYLLABICS", "TH-CREE", "THO"]),
  (0x15AB, ["CANADIAN", "SYLLABICS", "TH-CREE", "THOO"]),
  (0x15AC, ["CANADIAN", "SYLLABICS", "TH-CREE", "THA"]),
  (0x15AD, ["CANADIAN", "SYLLABICS", "TH-CREE", "THAA"]),
  (0x15AE, ["CANADIAN", "SYLLABICS", "TH-CREE", "TH"]),
  (0x15AF, ["CANADIAN", "SYLLABICS", "AIVILIK", "B"]),
  (0x15B0, ["CANADIAN", "SYLLABICS", "BLACKFOOT", "E"]),
  (0x15B1, ["CANADIAN", "SYLLABICS", "BLACKFOOT", "I"]),
  (0x15B2, ["CANADIAN", "SYLLABICS", "BLACKFOOT", "O"]),
  (0x15B3, ["CANADIAN", "SYLLABICS", "BLACKFOOT", "A"]),
  (0x15B4, ["CANADIAN", "SYLLABICS", "BLACKFOOT", "WE"]),
  (0x15B5, ["CANADIAN", "SYLLABICS", "BLACKFOOT", "WI"]),
  (0x15B6, ["CANADIAN", "SYLLABICS", "BLACKFOOT", "WO"]),
  (0x15B7, ["CANADIAN", "SYLLABICS", "BLACKFOOT", "WA"]),
  (0x15B8, ["CANADIAN", "SYLLABICS", "BLACKFOOT", "NE"]),
  (0x15B9, ["CANADIAN", "SYLLABICS", "BLACKFOOT", "NI"]),
  (0x15BA, ["CANADIAN", "SYLLABICS", "BLACKFOOT", "NO"]),
  (0x15BB, ["CANADIAN", "SYLLABICS", "BLACKFOOT", "NA"]),
  (0x15BC, ["CANADIAN", "SYLLABICS", "BLACKFOOT", "KE"]),
  (0x15BD, ["CANADIAN", "SYLLABICS", "BLACKFOOT", "KI"]),
  (0x15BE, ["CANADIAN", "SYLLABICS", "BLACKFOOT", "KO"]),
  (0x15BF, ["CANADIAN", "SYLLABICS", "BLACKFOOT", "KA"]),
  (0x15C0, ["CANADIAN", "SYLLABICS", "SAYISI", "HE"]),
  (0x15C1, ["CANADIAN", "SYLLABICS", "SAYISI", "HI"]),
  (0x15C2, ["CANADIAN", "SYLLABICS", "SAYISI", "HO"]),
  (0x15C3, ["CANADIAN", "SYLLABICS", "SAYISI", "HA"]),
  (0x15C4, ["CANADIAN", "SYLLABICS", "CARRIER", "GHU"]),
  (0x15C5, ["CANADIAN", "SYLLABICS", "CARRIER", "GHO"]),
  (0x15C6, ["CANADIAN", "SYLLABICS", "CARRIER", "GHE"]),
  (0x15C7, ["CANADIAN", "SYLLABICS", "CARRIER", "GHEE"]),
  (0x15C8, ["CANADIAN", "SYLLABICS", "CARRIER", "GHI"]),
  (0x15C9, ["CANADIAN", "SYLLABICS", "CARRIER", "GHA"]),
  (0x15CA, ["CANADIAN", "SYLLABICS", "CARRIER", "RU"]),
  (0x15CB, ["CANADIAN", "SYLLABICS", "CARRIER", "RO"]),
  (0x15CC, ["CANADIAN", "SYLLABICS", "CARRIER", "RE"]),
  (0x15CD, ["CANADIAN", "SYLLABICS", "CARRIER", "REE"]),
  (0x15CE, ["CANADIAN", "SYLLABICS", "CARRIER", "RI"]),
  (0x15CF, ["CANADIAN", "SYLLABICS", "CARRIER", "RA"]),
  (0x15D0, ["CANADIAN", "SYLLABICS", "CARRIER", "WU"]),
  (0x15D1, ["CANADIAN", "SYLLABICS", "CARRIER", "WO"]),
  (0x15D2, ["CANADIAN", "SYLLABICS", "CARRIER", "WE"]),
  (0x15D3, ["CANADIAN", "SYLLABICS", "CARRIER", "WEE"]),
  (0x15D4, ["CANADIAN", "SYLLABICS", "CARRIER", "WI"]),
  (0x15D5, ["CANADIAN", "SYLLABICS", "CARRIER", "WA"]),
  (0x15D6, ["CANADIAN", "SYLLABICS", "CARRIER", "HWU"]),
  (0x15D7, ["CANADIAN", "SYLLABICS", "CARRIER", "HWO"]),
  (0x15D8, ["CANADIAN", "SYLLABICS", "CARRIER", "HWE"]),
  (0x15D9, ["CANADIAN", "SYLLABICS", "CARRIER", "HWEE"]),
  (0x15DA, ["CANADIAN", "SYLLABICS", "CARRIER", "HWI"]),
  (0x15DB, ["CANADIAN", "SYLLABICS", "CARRIER", "HWA"]),
  (0x15DC, ["CANADIAN", "SYLLABICS", "CARRIER", "THU"]),
  (0x15DD, ["CANADIAN", "SYLLABICS", "CARRIER", "THO"]),
  (0x15DE, ["CANADIAN", "SYLLABICS", "CARRIER", "THE"]),
  (0x15DF, ["CANADIAN", "SYLLABICS", "CARRIER", "THEE"]),
  (0x15E0, ["CANADIAN", "SYLLABICS", "CARRIER", "THI"]),
  (0x15E1, ["CANADIAN", "SYLLABICS", "CARRIER", "THA"]),
  (0x15E2, ["CANADIAN", "SYLLABICS", "CARRIER", "TTU"]),
  (0x15E3, ["CANADIAN", "SYLLABICS", "CARRIER", "TTO"]),
  (0x15E4, ["CANADIAN", "SYLLABICS", "CARRIER", "TTE"]),
  (0x15E5, ["CANADIAN", "SYLLABICS", "CARRIER", "TTEE"]),
  (0x15E6, ["CANADIAN", "SYLLABICS", "CARRIER", "TTI"]),
  (0x15E7, ["CANADIAN", "SYLLABICS", "CARRIER", "TTA"]),
  (0x15E8, ["CANADIAN", "SYLLABICS", "CARRIER", "PU"]),
  (0x15E9, ["CANADIAN", "SYLLABICS", "CARRIER", "PO"]),
  (0x15EA, ["CANADIAN", "SYLLABICS", "CARRIER", "PE"]),
  (0x15EB, ["CANADIAN", "SYLLABICS", "CARRIER", "PEE"]),
  (0x15EC, ["CANADIAN", "SYLLABICS", "CARRIER", "PI"]),
  (0x15ED, ["CANADIAN", "SYLLABICS", "CARRIER", "PA"]),
  (0x15EE, ["CANADIAN", "SYLLABICS", "CARRIER", "P"]),
  (0x15EF, ["CANADIAN", "SYLLABICS", "CARRIER", "GU"]),
  (0x15F0, ["CANADIAN", "SYLLABICS", "CARRIER", "GO"]),
  (0x15F1, ["CANADIAN", "SYLLABICS", "CARRIER", "GE"]),
  (0x15F2, ["CANADIAN", "SYLLABICS", "CARRIER", "GEE"]),
  (0x15F3, ["CANADIAN", "SYLLABICS", "CARRIER", "GI"]),
  (0x15F4, ["CANADIAN", "SYLLABICS", "CARRIER", "GA"]),
  (0x15F5, ["CANADIAN", "SYLLABICS", "CARRIER", "KHU"]),
  (0x15F6, ["CANADIAN", "SYLLABICS", "CARRIER", "KHO"]),
  (0x15F7, ["CANADIAN", "SYLLABICS", "CARRIER", "KHE"]),
  (0x15F8, ["CANADIAN", "SYLLABICS", "CARRIER", "KHEE"]),
  (0x15F9, ["CANADIAN", "SYLLABICS", "CARRIER", "KHI"]),
  (0x15FA, ["CANADIAN", "SYLLABICS", "CARRIER", "KHA"]),
  (0x15FB, ["CANADIAN", "SYLLABICS", "CARRIER", "KKU"]),
  (0x15FC, ["CANADIAN", "SYLLABICS", "CARRIER", "KKO"]),
  (0x15FD, ["CANADIAN", "SYLLABICS", "CARRIER", "KKE"]),
  (0x15FE, ["CANADIAN", "SYLLABICS", "CARRIER", "KKEE"]),
  (0x15FF, ["CANADIAN", "SYLLABICS", "CARRIER", "KKI"]),
  (0x1600, ["CANADIAN", "SYLLABICS", "CARRIER", "KKA"]),
  (0x1601, ["CANADIAN", "SYLLABICS", "CARRIER", "KK"]),
  (0x1602, ["CANADIAN", "SYLLABICS", "CARRIER", "NU"]),
  (0x1603, ["CANADIAN", "SYLLABICS", "CARRIER", "NO"]),
  (0x1604, ["CANADIAN", "SYLLABICS", "CARRIER", "NE"]),
  (0x1605, ["CANADIAN", "SYLLABICS", "CARRIER", "NEE"]),
  (0x1606, ["CANADIAN", "SYLLABICS", "CARRIER", "NI"]),
  (0x1607, ["CANADIAN", "SYLLABICS", "CARRIER", "NA"]),
  (0x1608, ["CANADIAN", "SYLLABICS", "CARRIER", "MU"]),
  (0x1609, ["CANADIAN", "SYLLABICS", "CARRIER", "MO"]),
  (0x160A, ["CANADIAN", "SYLLABICS", "CARRIER", "ME"]),
  (0x160B, ["CANADIAN", "SYLLABICS", "CARRIER", "MEE"]),
  (0x160C, ["CANADIAN", "SYLLABICS", "CARRIER", "MI"]),
  (0x160D, ["CANADIAN", "SYLLABICS", "CARRIER", "MA"]),
  (0x160E, ["CANADIAN", "SYLLABICS", "CARRIER", "YU"]),
  (0x160F, ["CANADIAN", "SYLLABICS", "CARRIER", "YO"]),
  (0x1610, ["CANADIAN", "SYLLABICS", "CARRIER", "YE"]),
  (0x1611, ["CANADIAN", "SYLLABICS", "CARRIER", "YEE"]),
  (0x1612, ["CANADIAN", "SYLLABICS", "CARRIER", "YI"]),
  (0x1613, ["CANADIAN", "SYLLABICS", "CARRIER", "YA"]),
  (0x1614, ["CANADIAN", "SYLLABICS", "CARRIER", "JU"]),
  (0x1615, ["CANADIAN", "SYLLABICS", "SAYISI", "JU"]),
  (0x1616, ["CANADIAN", "SYLLABICS", "CARRIER", "JO"]),
  (0x1617, ["CANADIAN", "SYLLABICS", "CARRIER", "JE"]),
  (0x1618, ["CANADIAN", "SYLLABICS", "CARRIER", "JEE"]),
  (0x1619, ["CANADIAN", "SYLLABICS", "CARRIER", "JI"]),
  (0x161A, ["CANADIAN", "SYLLABICS", "SAYISI", "JI"]),
  (0x161B, ["CANADIAN", "SYLLABICS", "CARRIER", "JA"]),
  (0x161C, ["CANADIAN", "SYLLABICS", "CARRIER", "JJU"]),
  (0x161D, ["CANADIAN", "SYLLABICS", "CARRIER", "JJO"]),
  (0x161E, ["CANADIAN", "SYLLABICS", "CARRIER", "JJE"]),
  (0x161F, ["CANADIAN", "SYLLABICS", "CARRIER", "JJEE"]),
  (0x1620, ["CANADIAN", "SYLLABICS", "CARRIER", "JJI"]),
  (0x1621, ["CANADIAN", "SYLLABICS", "CARRIER", "JJA"]),
  (0x1622, ["CANADIAN", "SYLLABICS", "CARRIER", "LU"]),
  (0x1623, ["CANADIAN", "SYLLABICS", "CARRIER", "LO"]),
  (0x1624, ["CANADIAN", "SYLLABICS", "CARRIER", "LE"]),
  (0x1625, ["CANADIAN", "SYLLABICS", "CARRIER", "LEE"]),
  (0x1626, ["CANADIAN", "SYLLABICS", "CARRIER", "LI"]),
  (0x1627, ["CANADIAN", "SYLLABICS", "CARRIER", "LA"]),
  (0x1628, ["CANADIAN", "SYLLABICS", "CARRIER", "DLU"]),
  (0x1629, ["CANADIAN", "SYLLABICS", "CARRIER", "DLO"]),
  (0x162A, ["CANADIAN", "SYLLABICS", "CARRIER", "DLE"]),
  (0x162B, ["CANADIAN", "SYLLABICS", "CARRIER", "DLEE"]),
  (0x162C, ["CANADIAN", "SYLLABICS", "CARRIER", "DLI"]),
  (0x162D, ["CANADIAN", "SYLLABICS", "CARRIER", "DLA"]),
  (0x162E, ["CANADIAN", "SYLLABICS", "CARRIER", "LHU"]),
  (0x162F, ["CANADIAN", "SYLLABICS", "CARRIER", "LHO"]),
  (0x1630, ["CANADIAN", "SYLLABICS", "CARRIER", "LHE"]),
  (0x1631, ["CANADIAN", "SYLLABICS", "CARRIER", "LHEE"]),
  (0x1632, ["CANADIAN", "SYLLABICS", "CARRIER", "LHI"]),
  (0x1633, ["CANADIAN", "SYLLABICS", "CARRIER", "LHA"]),
  (0x1634, ["CANADIAN", "SYLLABICS", "CARRIER", "TLHU"]),
  (0x1635, ["CANADIAN", "SYLLABICS", "CARRIER", "TLHO"]),
  (0x1636, ["CANADIAN", "SYLLABICS", "CARRIER", "TLHE"]),
  (0x1637, ["CANADIAN", "SYLLABICS", "CARRIER", "TLHEE"]),
  (0x1638, ["CANADIAN", "SYLLABICS", "CARRIER", "TLHI"]),
  (0x1639, ["CANADIAN", "SYLLABICS", "CARRIER", "TLHA"]),
  (0x163A, ["CANADIAN", "SYLLABICS", "CARRIER", "TLU"]),
  (0x163B, ["CANADIAN", "SYLLABICS", "CARRIER", "TLO"]),
  (0x163C, ["CANADIAN", "SYLLABICS", "CARRIER", "TLE"]),
  (0x163D, ["CANADIAN", "SYLLABICS", "CARRIER", "TLEE"]),
  (0x163E, ["CANADIAN", "SYLLABICS", "CARRIER", "TLI"]),
  (0x163F, ["CANADIAN", "SYLLABICS", "CARRIER", "TLA"]),
  (0x1640, ["CANADIAN", "SYLLABICS", "CARRIER", "ZU"]),
  (0x1641, ["CANADIAN", "SYLLABICS", "CARRIER", "ZO"]),
  (0x1642, ["CANADIAN", "SYLLABICS", "CARRIER", "ZE"]),
  (0x1643, ["CANADIAN", "SYLLABICS", "CARRIER", "ZEE"]),
  (0x1644, ["CANADIAN", "SYLLABICS", "CARRIER", "ZI"]),
  (0x1645, ["CANADIAN", "SYLLABICS", "CARRIER", "ZA"]),
  (0x1646, ["CANADIAN", "SYLLABICS", "CARRIER", "Z"]),
  (0x1647, ["CANADIAN", "SYLLABICS", "CARRIER", "INITIAL", "Z"]),
  (0x1648, ["CANADIAN", "SYLLABICS", "CARRIER", "DZU"]),
  (0x1649, ["CANADIAN", "SYLLABICS", "CARRIER", "DZO"]),
  (0x164A, ["CANADIAN", "SYLLABICS", "CARRIER", "DZE"]),
  (0x164B, ["CANADIAN", "SYLLABICS", "CARRIER", "DZEE"]),
  (0x164C, ["CANADIAN", "SYLLABICS", "CARRIER", "DZI"]),
  (0x164D, ["CANADIAN", "SYLLABICS", "CARRIER", "DZA"]),
  (0x164E, ["CANADIAN", "SYLLABICS", "CARRIER", "SU"]),
  (0x164F, ["CANADIAN", "SYLLABICS", "CARRIER", "SO"]),
  (0x1650, ["CANADIAN", "SYLLABICS", "CARRIER", "SE"]),
  (0x1651, ["CANADIAN", "SYLLABICS", "CARRIER", "SEE"]),
  (0x1652, ["CANADIAN", "SYLLABICS", "CARRIER", "SI"]),
  (0x1653, ["CANADIAN", "SYLLABICS", "CARRIER", "SA"]),
  (0x1654, ["CANADIAN", "SYLLABICS", "CARRIER", "SHU"]),
  (0x1655, ["CANADIAN", "SYLLABICS", "CARRIER", "SHO"]),
  (0x1656, ["CANADIAN", "SYLLABICS", "CARRIER", "SHE"]),
  (0x1657, ["CANADIAN", "SYLLABICS", "CARRIER", "SHEE"]),
  (0x1658, ["CANADIAN", "SYLLABICS", "CARRIER", "SHI"]),
  (0x1659, ["CANADIAN", "SYLLABICS", "CARRIER", "SHA"]),
  (0x165A, ["CANADIAN", "SYLLABICS", "CARRIER", "SH"]),
  (0x165B, ["CANADIAN", "SYLLABICS", "CARRIER", "TSU"]),
  (0x165C, ["CANADIAN", "SYLLABICS", "CARRIER", "TSO"]),
  (0x165D, ["CANADIAN", "SYLLABICS", "CARRIER", "TSE"]),
  (0x165E, ["CANADIAN", "SYLLABICS", "CARRIER", "TSEE"]),
  (0x165F, ["CANADIAN", "SYLLABICS", "CARRIER", "TSI"]),
  (0x1660, ["CANADIAN", "SYLLABICS", "CARRIER", "TSA"]),
  (0x1661, ["CANADIAN", "SYLLABICS", "CARRIER", "CHU"]),
  (0x1662, ["CANADIAN", "SYLLABICS", "CARRIER", "CHO"]),
  (0x1663, ["CANADIAN", "SYLLABICS", "CARRIER", "CHE"]),
  (0x1664, ["CANADIAN", "SYLLABICS", "CARRIER", "CHEE"]),
  (0x1665, ["CANADIAN", "SYLLABICS", "CARRIER", "CHI"]),
  (0x1666, ["CANADIAN", "SYLLABICS", "CARRIER", "CHA"]),
  (0x1667, ["CANADIAN", "SYLLABICS", "CARRIER", "TTSU"]),
  (0x1668, ["CANADIAN", "SYLLABICS", "CARRIER", "TTSO"]),
  (0x1669, ["CANADIAN", "SYLLABICS", "CARRIER", "TTSE"]),
  (0x166A, ["CANADIAN", "SYLLABICS", "CARRIER", "TTSEE"]),
  (0x166B, ["CANADIAN", "SYLLABICS", "CARRIER", "TTSI"]),
  (0x166C, ["CANADIAN", "SYLLABICS", "CARRIER", "TTSA"]),
  (0x166D, ["CANADIAN", "SYLLABICS", "CHI", "SIGN"]),
  (0x166E, ["CANADIAN", "SYLLABICS", "FULL", "STOP"]),
  (0x166F, ["CANADIAN", "SYLLABICS", "QAI"]),
  (0x1670, ["CANADIAN", "SYLLABICS", "NGAI"]),
  (0x1671, ["CANADIAN", "SYLLABICS", "NNGI"]),
  (0x1672, ["CANADIAN", "SYLLABICS", "NNGII"]),
  (0x1673, ["CANADIAN", "SYLLABICS", "NNGO"]),
  (0x1674, ["CANADIAN", "SYLLABICS", "NNGOO"]),
  (0x1675, ["CANADIAN", "SYLLABICS", "NNGA"]),
  (0x1676, ["CANADIAN", "SYLLABICS", "NNGAA"]),
  (0x1677, ["CANADIAN", "SYLLABICS", "WOODS-CREE", "THWEE"]),
  (0x1678, ["CANADIAN", "SYLLABICS", "WOODS-CREE", "THWI"]),
  (0x1679, ["CANADIAN", "SYLLABICS", "WOODS-CREE", "THWII"]),
  (0x167A, ["CANADIAN", "SYLLABICS", "WOODS-CREE", "THWO"]),
  (0x167B, ["CANADIAN", "SYLLABICS", "WOODS-CREE", "THWOO"]),
  (0x167C, ["CANADIAN", "SYLLABICS", "WOODS-CREE", "THWA"]),
  (0x167D, ["CANADIAN", "SYLLABICS", "WOODS-CREE", "THWAA"]),
  (0x167E, ["CANADIAN", "SYLLABICS", "WOODS-CREE", "FINAL", "TH"]),
  (0x167F, ["CANADIAN", "SYLLABICS", "BLACKFOOT", "W"]),
  (0x18B0, ["CANADIAN", "SYLLABICS", "OY"]),
  (0x18B1, ["CANADIAN", "SYLLABICS", "AY"]),
  (0x18B2, ["CANADIAN", "SYLLABICS", "AAY"]),
  (0x18B3, ["CANADIAN", "SYLLABICS", "WAY"]),
  (0x18B4, ["CANADIAN", "SYLLABICS", "POY"]),
  (0x18B5, ["CANADIAN", "SYLLABICS", "PAY"]),
  (0x18B6, ["CANADIAN", "SYLLABICS", "PWOY"]),
  (0x18B7, ["CANADIAN", "SYLLABICS", "TAY"]),
  (0x18B8, ["CANADIAN", "SYLLABICS", "KAY"]),
  (0x18B9, ["CANADIAN", "SYLLABICS", "KWAY"]),
  (0x18BA, ["CANADIAN", "SYLLABICS", "MAY"]),
  (0x18BB, ["CANADIAN", "SYLLABICS", "NOY"]),
  (0x18BC, ["CANADIAN", "SYLLABICS", "NAY"]),
  (0x18BD, ["CANADIAN", "SYLLABICS", "LAY"]),
  (0x18BE, ["CANADIAN", "SYLLABICS", "SOY"]),
  (0x18BF, ["CANADIAN", "SYLLABICS", "SAY"]),
  (0x18C0, ["CANADIAN", "SYLLABICS", "SHOY"]),
  (0x18C1, ["CANADIAN", "SYLLABICS", "SHAY"]),
  (0x18C2, ["CANADIAN", "SYLLABICS", "SHWOY"]),
  (0x18C3, ["CANADIAN", "SYLLABICS", "YOY"]),
  (0x18C4, ["CANADIAN", "SYLLABICS", "YAY"]),
  (0x18C5, ["CANADIAN", "SYLLABICS", "RAY"]),
  (0x18C6, ["CANADIAN", "SYLLABICS", "NWI"]),
  (0x18C7, ["CANADIAN", "SYLLABICS", "OJIBWAY", "NWI"]),
  (0x18C8, ["CANADIAN", "SYLLABICS", "NWII"]),
  (0x18C9, ["CANADIAN", "SYLLABICS", "OJIBWAY", "NWII"]),
  (0x18CA, ["CANADIAN", "SYLLABICS", "NWO"]),
  (0x18CB, ["CANADIAN", "SYLLABICS", "OJIBWAY", "NWO"]),
  (0x18CC, ["CANADIAN", "SYLLABICS", "NWOO"]),
  (0x18CD, ["CANADIAN", "SYLLABICS", "OJIBWAY", "NWOO"]),
  (0x18CE, ["CANADIAN", "SYLLABICS", "RWEE"]),
  (0x18CF, ["CANADIAN", "SYLLABICS", "RWI"]),
  (0x18D0, ["CANADIAN", "SYLLABICS", "RWII"]),
  (0x18D1, ["CANADIAN", "SYLLABICS", "RWO"]),
  (0x18D2, ["CANADIAN", "SYLLABICS", "RWOO"]),
  (0x18D3, ["CANADIAN", "SYLLABICS", "RWA"]),
  (0x18D4, ["CANADIAN", "SYLLABICS", "OJIBWAY", "P"]),
  (0x18D5, ["CANADIAN", "SYLLABICS", "OJIBWAY", "T"]),
  (0x18D6, ["CANADIAN", "SYLLABICS", "OJIBWAY", "K"]),
  (0x18D7, ["CANADIAN", "SYLLABICS", "OJIBWAY", "C"]),
  (0x18D8, ["CANADIAN", "SYLLABICS", "OJIBWAY", "M"]),
  (0x18D9, ["CANADIAN", "SYLLABICS", "OJIBWAY", "N"]),
  (0x18DA, ["CANADIAN", "SYLLABICS", "OJIBWAY", "S"]),
  (0x18DB, ["CANADIAN", "SYLLABICS", "OJIBWAY", "SH"]),
  (0x18DC, ["CANADIAN", "SYLLABICS", "EASTERN", "W"]),
  (0x18DD, ["CANADIAN", "SYLLABICS", "WESTERN", "W"]),
  (0x18DE, ["CANADIAN", "SYLLABICS", "FINAL", "SMALL", "RING"]),
  (0x18DF, ["CANADIAN", "SYLLABICS", "FINAL", "RAISED", "DOT"]),
  (0x18E0, ["CANADIAN", "SYLLABICS", "R-CREE", "RWE"]),
  (0x18E1, ["CANADIAN", "SYLLABICS", "WEST-CREE", "LOO"]),
  (0x18E2, ["CANADIAN", "SYLLABICS", "WEST-CREE", "LAA"]),
  (0x18E3, ["CANADIAN", "SYLLABICS", "THWE"]),
  (0x18E4, ["CANADIAN", "SYLLABICS", "THWA"]),
  (0x18E5, ["CANADIAN", "SYLLABICS", "TTHWE"]),
  (0x18E6, ["CANADIAN", "SYLLABICS", "TTHOO"]),
  (0x18E7, ["CANADIAN", "SYLLABICS", "TTHAA"]),
  (0x18E8, ["CANADIAN", "SYLLABICS", "TLHWE"]),
  (0x18E9, ["CANADIAN", "SYLLABICS", "TLHOO"]),
  (0x18EA, ["CANADIAN", "SYLLABICS", "SAYISI", "SHWE"]),
  (0x18EB, ["CANADIAN", "SYLLABICS", "SAYISI", "SHOO"]),
  (0x18EC, ["CANADIAN", "SYLLABICS", "SAYISI", "HOO"]),
  (0x18ED, ["CANADIAN", "SYLLABICS", "CARRIER", "GWU"]),
  (0x18EE, ["CANADIAN", "SYLLABICS", "CARRIER", "DENE", "GEE"]),
  (0x18EF, ["CANADIAN", "SYLLABICS", "CARRIER", "GAA"]),
  (0x18F0, ["CANADIAN", "SYLLABICS", "CARRIER", "GWA"]),
  (0x18F1, ["CANADIAN", "SYLLABICS", "SAYISI", "JUU"]),
  (0x18F2, ["CANADIAN", "SYLLABICS", "CARRIER", "JWA"]),
  (0x18F3, ["CANADIAN", "SYLLABICS", "BEAVER", "DENE", "L"]),
  (0x18F4, ["CANADIAN", "SYLLABICS", "BEAVER", "DENE", "R"]),
  (0x18F5, ["CANADIAN", "SYLLABICS", "CARRIER", "DENTAL", "S"])]

/-- The name of a code point as its token list; scalars outside the table map
to the empty token list (never consulted by the build). -/
def nameTokens (n : Nat) : List String :=
  match ucdNames.lookup n with
  | some t => t
  | none => []

/-- Descriptor tokens: the name with its mandatory two-token
"CANADIAN SYLLABICS" prefix stripped, as in `c, s, *desc = name.split()`. -/
def descTokens (n : Nat) : List String :=
  (nameTokens n).drop 2

/-- The joined descriptor, `" ".join(desc)`; because every name in the table
is single-spaced with the exact two-token prefix, this also models the slice
`name[len("CANADIAN SYLLABICS "):]` used by `Consonant.sro`. -/
def descStr (n : Nat) : String :=
  String.intercalate " " (descTokens n)

/-- The shape key: the final descriptor token (`desc[-1]`, equally the last
token of the full name as read by `SyllabicWithVowelBase.syllable`). -/
def shapeKey (n : Nat) : String :=
  (descTokens n).getLastD ""

/-- The shape key as a character list. -/
def keyChars (n : Nat) : List Char :=
  (shapeKey n).toList

/-- Onset letters of the shape grammar, the class `[PTCKSMNWY]`. -/
def isOnsetChar (c : Char) : Bool :=
  c ∈ ['P', 'T', 'C', 'K', 'S', 'M', 'N', 'W', 'Y']

/-- Vowel letters of the shape grammar, the class `[AIOE]`. -/
def isVowelLetter (c : Char) : Bool :=
  c ∈ ['A', 'I', 'O', 'E']

/-- The nucleus `([AIOE])\1?`: one vowel letter, optionally doubled (the
backreference forces the second letter to repeat the first). -/
def matchNucleus : List Char → Bool
  | [v] => isVowelLetter v
  | [v, w] => isVowelLetter v && v = w
  | _ => false

/-- The anchored onset+vowel grammar `^(?:[PTCKSMNWY]W?)?([AIOE])\1?$`. -/
def matchesShape (s : List Char) : Bool :=
  matchNucleus s ||
    (match s with
     | c :: rest =>
         isOnsetChar c &&
           (matchNucleus rest ||
             (match rest with
              | 'W' :: rest2 => matchNucleus rest2
              | _ => false))
     | [] => false)

/-- Sequence containment test used for `"THW" in desc_str`: does the
haystack start with the needle? -/
def startsWithSeq : List Char → List Char → Bool
  | [], _ => true
  | _ :: _, [] => false
  | a :: as, b :: bs => a = b && startsWithSeq as bs

/-- Substring containment on character lists, Python's `needle in haystack`. -/
def hasSubSeq (needle : List Char) : List Char → Bool
  | [] => startsWithSeq needle []
  | a :: rest => startsWithSeq needle (a :: rest) || hasSubSeq needle rest

/-- The consonant-final table of `libsyllabics/legacy_roster.py` (partial
Unicode names to SRO), used by its classification pass. -/
def legacyClassTable : List (String × String) :=
  [("WEST-CREE P", "p"),
   ("FINAL ACUTE", "t"),
   ("FINAL GRAVE", "k"),
   ("FINAL SHORT HORIZONTAL STROKE", "c"),
   ("WEST-CREE M", "m"),
   ("FINAL RIGHT HALF RING", "n"),
   ("FINAL TOP HALF RING", "s"),
   ("FINAL DOUBLE SHORT VERTICAL STROKES", "h"),
   ("FINAL PLUS", "y"),
   ("WOODS-CREE FINAL TH", "th"),
   ("FINAL RING", "w"),
   ("HK", "hk"),
   ("MEDIAL L", "l"),
   ("MEDIAL R", "r")]

/-- The consonant table of `libsyllabics/types.py` (`Consonant.sro`); note it
keeps the key "TH-CREE TH" and lacks "WOODS-CREE FINAL TH", out of sync with
`legacyClassTable`. -/
def typesSroTable : List (String × String) :=
  [("WEST-CREE P", "p"),
   ("FINAL ACUTE", "t"),
   ("FINAL GRAVE", "k"),
   ("FINAL SHORT HORIZONTAL STROKE", "c"),
   ("WEST-CREE M", "m"),
   ("FINAL RIGHT HALF RING", "n"),
   ("FINAL TOP HALF RING", "s"),
   ("FINAL DOUBLE SHORT VERTICAL STROKES", "h"),
   ("FINAL PLUS", "y"),
   ("TH-CREE TH", "th"),
   ("FINAL RING", "w"),
   ("HK", "hk"),
   ("MEDIAL L", "l"),
   ("MEDIAL R", "r")]

/-- The consonant table of the standalone script `syllabics.py`, used there
both for classification and for `Consonant.sro`. -/
def oldTable : List (String × String) :=
  [("WEST-CREE P", "p"),
   ("FINAL ACUTE", "t"),
   ("FINAL GRAVE", "k"),
   ("FINAL SHORT HORIZONTAL STROKE", "c"),
   ("WEST-CREE M", "m"),
   ("FINAL RIGHT HALF RING", "n"),
   ("FINAL TOP HALF RING", "s"),
   ("FINAL DOUBLE SHORT VERTICAL STROKES", "h"),
   ("WEST-CREE Y", "y"),
   ("TH-CREE TH", "th"),
   ("FINAL RING", "w"),
   ("HK", "hk"),
   ("MEDIAL L", "l"),
   ("MEDIAL R", "r")]

/-- The resolution markers of `legacy_roster.choose_appropriate_variant`. -/
def legacyMarkers : List String :=
  ["WEST-CREE", "WOODS-CREE", "OJIBWAY"]

/-- The resolution markers of the standalone script (no "OJIBWAY"). -/
def oldMarkers : List String :=
  ["WEST-CREE", "WOODS-CREE"]

/-- Does a candidate's descriptor token list contain one of the markers?
This is the disjunction `"WEST-CREE" in desc or "WOODS-CREE" in desc or
"OJIBWAY" in desc` of the resolver's first loop. -/
def markerHit (markers : List String) (c : Cand) : Bool :=
  markers.any (fun m => c.2.contains m)

/-- Has the candidate an empty descriptor token list (`len(desc) == 0`)? -/
def emptyDesc (c : Cand) : Bool :=
  c.2.isEmpty

/-- The variant resolver `choose_appropriate_variant`: first loop returns the
first candidate whose descriptor holds any marker; second loop the first
candidate with an empty descriptor; `none` models the final
`raise ValueError`. -/
def chooseAppropriateVariant (markers : List String) (variants : List Cand) :
    Option Nat :=
  match variants.find? (markerHit markers) with
  | some c => some c.1
  | none =>
    match variants.find? emptyDesc with
    | some c => some c.1
    | none => none

/-- Accumulator of the classification pass: the shape-key candidate groups
(in first-insertion order, i.e. Python dict insertion order) and the
immediately accepted consonant-final code points (in scan order). -/
structure ClassifyState where
  groups : List (String × List Cand)
  consPoints : List Nat
deriving DecidableEq, Repr

/-- Append a candidate to its shape-key group, creating the group at the end
on first sight: `onsets_nucleus.setdefault(syllable, ...).add(...)` with
dict insertion order and encounter order inside each group. -/
def insertGroup (gs : List (String × List Cand)) (k : String) (c : Cand) :
    List (String × List Cand) :=
  match gs with
  | [] => [(k, [c])]
  | (k', cs) :: rest =>
    if k' = k then (k', cs ++ [c]) :: rest
    else (k', cs) :: insertGroup rest k c

/-- One step of the classification loop over a scanned code point, shared by
both implementations and instantiated with their consonant table and with
whether the East-Cree bare-TH final is skipped (`legacy_roster.py` skips it,
`syllabics.py` has no such check). -/
def classifyStep (table : List (String × String)) (skipBareTH : Bool)
    (st : ClassifyState) (entry : Nat × List String) : ClassifyState :=
  let i := entry.1
  let desc := entry.2.drop 2
  let syllable := desc.getLastD ""
  let ds := String.intercalate " " desc
  if matchesShape syllable.toList then
    { st with groups := insertGroup st.groups syllable (i, desc.dropLast) }
  else if (table.lookup ds).isSome then
    { st with consPoints := st.consPoints ++ [i] }
  else if desc.contains "TH-CREE" then
    if skipBareTH && syllable = "TH" then st
    else { st with groups := insertGroup st.groups syllable (i, desc.dropLast) }
  else if desc.contains "WOODS-CREE" && hasSubSeq "THW".toList ds.toList then
    { st with groups := insertGroup st.groups syllable (i, desc.dropLast) }
  else st

/-- The whole classification pass over the two scanned ranges. -/
def classifyAll (table : List (String × String)) (skipBareTH : Bool) :
    ClassifyState :=
  ucdNames.foldl (classifyStep table skipBareTH) ⟨[], []⟩

/-- The `libsyllabics` classification (its own consonant table, bare-TH
final skipped). -/
def classifyLegacy : ClassifyState :=
  classifyAll legacyClassTable true

/-- The standalone script's classification (its consonant table, no bare-TH
skip). -/
def classifyOld : ClassifyState :=
  classifyAll oldTable false

/-- Resolution of one shape-key group, the body of the second loop: groups
with several candidates go through the variant resolver (a failed resolution
is the fatal `ValueError`); a lone candidate is dropped when Carrier-marked
and accepted otherwise.  `ok none` means the group contributes no glyph. -/
def resolveGroup (markers : List String) (cands : List Cand) :
    Except String (Option Nat) :=
  if cands.length > 1 then
    match chooseAppropriateVariant markers cands with
    | some g => .ok (some g)
    | none => .error "ValueError"
  else
    match cands with
    | [] => .ok none
    | c :: _ =>
      if c.2.contains "CARRIER" then .ok none else .ok (some c.1)

/-- Resolve every group in order, collecting the accepted glyphs. -/
def resolveAll (markers : List String) :
    List (String × List Cand) → Except String (List Nat)
  | [] => .ok []
  | (_, cands) :: rest => do
    let pick ← resolveGroup markers cands
    let more ← resolveAll markers rest
    match pick with
    | some g => pure (g :: more)
    | none => pure more

/-- `SyllabicWithVowelBase.new`: a deferred glyph becomes a `Vowel` when the
first character of its name's last token is a vowel letter, else a
`Syllable`. -/
def newKind (n : Nat) : Kind :=
  match keyChars n with
  | c :: _ => if isVowelLetter c then Kind.vowel else Kind.syllable
  | [] => Kind.syllable

/-- Insert an entity into a list sorted by ascending scalar value. -/
def insertByScalar (e : Syllabic) : List Syllabic → List Syllabic
  | [] => [e]
  | x :: xs =>
    if e.scalar < x.scalar then e :: x :: xs
    else x :: insertByScalar e xs

/-- Sort entities by ascending scalar value, modelling
`sorted(roster)` under the `total_ordering` on scalar values (the roster's
scalar values are pairwise distinct, so the sorted sequence is unique and
the set-iteration order feeding `sorted` is irrelevant). -/
def sortByScalar : List Syllabic → List Syllabic
  | [] => []
  | x :: xs => insertByScalar x (sortByScalar xs)

/-- Assemble the roster from accepted consonant-final points and resolved
shape-group points. -/
def assemble (consPoints resolved : List Nat) : List Syllabic :=
  sortByScalar
    (consPoints.map (fun n => ⟨n, Kind.consonant⟩) ++
      resolved.map (fun n => ⟨n, newKind n⟩))

/-- The `libsyllabics` build, with the candidate list of each shape-key group
first rearranged by `shuffle`: Python holds each group as a `set`, whose
iteration order is unspecified and varies across runs (string hash
randomization), so a run of the build corresponds to one choice of
`shuffle` producing a permutation of each group. -/
def buildRosterWithE (shuffle : String → List Cand → List Cand) :
    Except String (List Syllabic) := do
  let st := classifyLegacy
  let resolved ← resolveAll legacyMarkers
    (st.groups.map (fun g => (g.1, shuffle g.1 g.2)))
  pure (assemble st.consPoints resolved)

/-- The `libsyllabics` build in canonical (encounter) candidate order. -/
def buildRosterE : Except String (List Syllabic) :=
  buildRosterWithE (fun _ c => c)

/-- The `libsyllabics` roster `plains_cree_syllabics` (empty on the fatal
`ValueError`, which the actual data never triggers). -/
def buildRoster : List Syllabic :=
  match buildRosterE with
  | .ok l => l
  | .error _ => []

/-- The standalone script's build. -/
def buildRosterOldE : Except String (List Syllabic) := do
  let st := classifyOld
  let resolved ← resolveAll oldMarkers st.groups
  pure (assemble st.consPoints resolved)

/-- The standalone script's roster. -/
def buildRosterOld : List Syllabic :=
  match buildRosterOldE with
  | .ok l => l
  | .error _ => []

/-- The trailing vowel letter of the shape key, lowercased
(`SyllabicWithVowelBase.vowel` without its assertion; the assertion's
condition is `vowelOk`, proved to hold on every roster entity with a
vowel). -/
def vowelChar (n : Nat) : Char :=
  ((keyChars n).getLastD ' ').toLower

/-- The assertion guard of `SyllabicWithVowelBase.vowel`: the shape key's
last character is one of A, E, I, O. -/
def vowelOk (n : Nat) : Bool :=
  match (keyChars n).getLast? with
  | some c => c ∈ ['A', 'E', 'I', 'O']
  | none => false

/-- `SyllabicWithVowelBase.has_long_vowel`: true for the e-series, false for
one-letter keys, else true exactly when the key's last two characters are
equal. -/
def hasLongVowel (n : Nat) : Bool :=
  if vowelChar n = 'e' then true
  else if (keyChars n).length < 2 then false
  else
    match (keyChars n).reverse with
    | a :: b :: _ => a = b
    | _ => false

/-- NFC composition of a vowel letter with U+0302 COMBINING CIRCUMFLEX
ACCENT, modelling `unicodedata.normalize("NFC", vowel + "̂")`: for the
four letters that occur the canonical composition is the single precomposed
code point; any other character is returned with the combining mark
uncomposed. -/
def nfcCircumflex (c : Char) : String :=
  if c = 'a' then "â"
  else if c = 'e' then "ê"
  else if c = 'i' then "î"
  else if c = 'o' then "ô"
  else String.mk [c, '̂']

/-- `SyllabicWithVowelBase.vowel_with_length`. -/
def vowelWithLength (n : Nat) : String :=
  if hasLongVowel n then nfcCircumflex (vowelChar n)
  else String.mk [vowelChar n]

/-- `SyllabicWithVowelBase._qwerty_mnemonic_for_vowel`: the bare vowel
letter, doubled when long and not e. -/
def qwertyVowelPart (n : Nat) : String :=
  if vowelChar n = 'e' || !hasLongVowel n then String.mk [vowelChar n]
  else String.mk [vowelChar n, vowelChar n]

/-- The leading consonant character of a syllable's shape key, lowercased. -/
def consChar (n : Nat) : Char :=
  ((keyChars n).headD ' ').toLower

/-- `Syllable.consonant`: the literal "th" when the shape key starts with
"TH", else the lowercased leading letter. -/
def syllableConsonant (n : Nat) : String :=
  if (keyChars n).take 2 = ['T', 'H'] then "th"
  else String.mk [consChar n]

/-- `Syllable.is_labialized`: a W anywhere after index 0 of the shape key. -/
def isLabialized (n : Nat) : Bool :=
  ((keyChars n).drop 1).contains 'W'

/-- `Syllable.has_w`. -/
def hasW (n : Nat) : Bool :=
  isLabialized n || syllableConsonant n = "w"

/-- `Syllable.sro`: consonant, glide w when labialized, vowel with length. -/
def sroSyllable (n : Nat) : String :=
  syllableConsonant n ++ (if isLabialized n then "w" else "") ++
    vowelWithLength n

/-- `Syllable.vim_digraph`: empty for a multi-letter consonant (the th
series), else the consonant letter (uppercased when labialized) followed by
the vowel letter (uppercased when long and not e). -/
def vimSyllable (n : Nat) : String :=
  if (syllableConsonant n).length > 1 then ""
  else
    String.mk
      [if isLabialized n then (consChar n).toUpper else consChar n,
       if vowelChar n ≠ 'e' && hasLongVowel n then (vowelChar n).toUpper
       else vowelChar n]

/-- `Syllable.in_plains_cree`: everything but the th series. -/
def inPlainsCreeSyllable (n : Nat) : Bool :=
  syllableConsonant n ≠ "th"

/-- `Syllable.qwerty_mnemonic` as defined in `libsyllabics/types.py`:
consonant, then "w" when labialized, then the doubled-when-long vowel. -/
def qwertyMnemonicSyllable (n : Nat) : String :=
  syllableConsonant n ++ (if isLabialized n then "w" else "") ++
    qwertyVowelPart n

/-- `Syllable.qwerty_mnemonic` as defined in the standalone `syllabics.py`:
consonant then vowel part, with no labialization glide. -/
def qwertyMnemonicSyllableOld (n : Nat) : String :=
  syllableConsonant n ++ qwertyVowelPart n

/-- `Vowel.sro`. -/
def sroVowel (n : Nat) : String :=
  vowelWithLength n

/-- `Vowel.vim_digraph`: the vowel letter plus ":" when long, "." when
short. -/
def vimVowel (n : Nat) : String :=
  String.mk [vowelChar n] ++ (if hasLongVowel n then ":" else ".")

/-- `Vowel.qwerty_mnemonic`. -/
def qwertyVowel (n : Nat) : String :=
  qwertyVowelPart n

/-- `Consonant.sro` against a given table; `.error "KeyError"` models the
uncaught `KeyError` of a description missing from the table. -/
def consonantSroT (table : List (String × String)) (n : Nat) :
    Except String String :=
  match table.lookup (descStr n) with
  | some s => .ok s
  | none => .error "KeyError"

/-- `Consonant.sro` of `libsyllabics/types.py` (its own embedded table). -/
def consonantSroE (n : Nat) : Except String String :=
  consonantSroT typesSroTable n

/-- `Consonant.sro` of the standalone script (module-level table). -/
def consonantSroOldE (n : Nat) : Except String String :=
  consonantSroT oldTable n

/-- `Consonant.consonant` (types.py): the deliberate `AttributeError` for the
"hk" final, the propagated `KeyError` for a missing description, and the SRO
spelling otherwise. -/
def consonantAccessorE (n : Nat) : Except String String := do
  let s ← consonantSroE n
  if s = "hk" then .error "AttributeError" else pure s

/-- `Consonant.vim_digraph` (types.py): "hk" verbatim, empty for "th", else
the SRO spelling plus a dot. -/
def vimConsonantE (n : Nat) : Except String String := do
  let s ← consonantSroE n
  if s = "hk" then pure "hk"
  else if s = "th" then pure ""
  else pure (s ++ ".")

/-- `Consonant.in_plains_cree` (types.py, which tests `self.sro`). -/
def inPlainsCreeConsonantE (n : Nat) : Except String Bool := do
  let s ← consonantSroE n
  pure (s ≠ "th")

/-- The vim digraph of a roster entity (types.py derivations). -/
def vimDigraphE (e : Syllabic) : Except String String :=
  match e.kind with
  | Kind.syllable => .ok (vimSyllable e.scalar)
  | Kind.vowel => .ok (vimVowel e.scalar)
  | Kind.consonant => vimConsonantE e.scalar

/-- The `in_plains_cree` flag of a roster entity (types.py derivations). -/
def inPlainsCreeE (e : Syllabic) : Except String Bool :=
  match e.kind with
  | Kind.syllable => .ok (inPlainsCreeSyllable e.scalar)
  | Kind.vowel => .ok true
  | Kind.consonant => inPlainsCreeConsonantE e.scalar


/-- The concrete value of the libsyllabics roster, for cross-claim reuse. -/
def legacyRosterList : List Syllabic :=
  [Syllabic.mk 0x1401 Kind.vowel, Syllabic.mk 0x1403 Kind.vowel, Syllabic.mk 0x1404 Kind.vowel, Syllabic.mk 0x1405 Kind.vowel,
   Syllabic.mk 0x1406 Kind.vowel, Syllabic.mk 0x140A Kind.vowel, Syllabic.mk 0x140B Kind.vowel, Syllabic.mk 0x140D Kind.syllable,
   Syllabic.mk 0x140F Kind.syllable, Syllabic.mk 0x1411 Kind.syllable, Syllabic.mk 0x1413 Kind.syllable, Syllabic.mk 0x1415 Kind.syllable,
   Syllabic.mk 0x1418 Kind.syllable, Syllabic.mk 0x141A Kind.syllable, Syllabic.mk 0x141F Kind.consonant, Syllabic.mk 0x1420 Kind.consonant,
   Syllabic.mk 0x1422 Kind.consonant, Syllabic.mk 0x1423 Kind.consonant, Syllabic.mk 0x1424 Kind.consonant, Syllabic.mk 0x1426 Kind.consonant,
   Syllabic.mk 0x1428 Kind.consonant, Syllabic.mk 0x1429 Kind.consonant, Syllabic.mk 0x142F Kind.syllable, Syllabic.mk 0x1431 Kind.syllable,
   Syllabic.mk 0x1432 Kind.syllable, Syllabic.mk 0x1433 Kind.syllable, Syllabic.mk 0x1434 Kind.syllable, Syllabic.mk 0x1438 Kind.syllable,
   Syllabic.mk 0x1439 Kind.syllable, Syllabic.mk 0x143B Kind.syllable, Syllabic.mk 0x143D Kind.syllable, Syllabic.mk 0x143F Kind.syllable,
   Syllabic.mk 0x1441 Kind.syllable, Syllabic.mk 0x1443 Kind.syllable, Syllabic.mk 0x1445 Kind.syllable, Syllabic.mk 0x1447 Kind.syllable,
   Syllabic.mk 0x144A Kind.consonant, Syllabic.mk 0x144C Kind.syllable, Syllabic.mk 0x144E Kind.syllable, Syllabic.mk 0x144F Kind.syllable,
   Syllabic.mk 0x1450 Kind.syllable, Syllabic.mk 0x1451 Kind.syllable, Syllabic.mk 0x1455 Kind.syllable, Syllabic.mk 0x1456 Kind.syllable,
   Syllabic.mk 0x1458 Kind.syllable, Syllabic.mk 0x145A Kind.syllable, Syllabic.mk 0x145C Kind.syllable, Syllabic.mk 0x145E Kind.syllable,
   Syllabic.mk 0x1460 Kind.syllable, Syllabic.mk 0x1462 Kind.syllable, Syllabic.mk 0x1464 Kind.syllable, Syllabic.mk 0x146B Kind.syllable,
   Syllabic.mk 0x146D Kind.syllable, Syllabic.mk 0x146E Kind.syllable, Syllabic.mk 0x146F Kind.syllable, Syllabic.mk 0x1470 Kind.syllable,
   Syllabic.mk 0x1472 Kind.syllable, Syllabic.mk 0x1473 Kind.syllable, Syllabic.mk 0x1475 Kind.syllable, Syllabic.mk 0x1477 Kind.syllable,
   Syllabic.mk 0x1479 Kind.syllable, Syllabic.mk 0x147B Kind.syllable, Syllabic.mk 0x147D Kind.syllable, Syllabic.mk 0x147F Kind.syllable,
   Syllabic.mk 0x1481 Kind.syllable, Syllabic.mk 0x1489 Kind.syllable, Syllabic.mk 0x148B Kind.syllable, Syllabic.mk 0x148C Kind.syllable,
   Syllabic.mk 0x148D Kind.syllable, Syllabic.mk 0x148E Kind.syllable, Syllabic.mk 0x1490 Kind.syllable, Syllabic.mk 0x1491 Kind.syllable,
   Syllabic.mk 0x1493 Kind.syllable, Syllabic.mk 0x1495 Kind.syllable, Syllabic.mk 0x1497 Kind.syllable, Syllabic.mk 0x1499 Kind.syllable,
   Syllabic.mk 0x149B Kind.syllable, Syllabic.mk 0x149D Kind.syllable, Syllabic.mk 0x149F Kind.syllable, Syllabic.mk 0x14A3 Kind.syllable,
   Syllabic.mk 0x14A5 Kind.syllable, Syllabic.mk 0x14A6 Kind.syllable, Syllabic.mk 0x14A7 Kind.syllable, Syllabic.mk 0x14A8 Kind.syllable,
   Syllabic.mk 0x14AA Kind.syllable, Syllabic.mk 0x14AB Kind.syllable, Syllabic.mk 0x14AD Kind.syllable, Syllabic.mk 0x14AF Kind.syllable,
   Syllabic.mk 0x14B1 Kind.syllable, Syllabic.mk 0x14B3 Kind.syllable, Syllabic.mk 0x14B5 Kind.syllable, Syllabic.mk 0x14B7 Kind.syllable,
   Syllabic.mk 0x14B9 Kind.syllable, Syllabic.mk 0x14BC Kind.consonant, Syllabic.mk 0x14C0 Kind.syllable, Syllabic.mk 0x14C2 Kind.syllable,
   Syllabic.mk 0x14C3 Kind.syllable, Syllabic.mk 0x14C4 Kind.syllable, Syllabic.mk 0x14C5 Kind.syllable, Syllabic.mk 0x14C7 Kind.syllable,
   Syllabic.mk 0x14C8 Kind.syllable, Syllabic.mk 0x14CA Kind.syllable, Syllabic.mk 0x14CC Kind.syllable, Syllabic.mk 0x14CE Kind.syllable,
   Syllabic.mk 0x14EC Kind.consonant, Syllabic.mk 0x14ED Kind.syllable, Syllabic.mk 0x14EF Kind.syllable, Syllabic.mk 0x14F0 Kind.syllable,
   Syllabic.mk 0x14F1 Kind.syllable, Syllabic.mk 0x14F2 Kind.syllable, Syllabic.mk 0x14F4 Kind.syllable, Syllabic.mk 0x14F5 Kind.syllable,
   Syllabic.mk 0x14F7 Kind.syllable, Syllabic.mk 0x14F9 Kind.syllable, Syllabic.mk 0x14FB Kind.syllable, Syllabic.mk 0x14FD Kind.syllable,
   Syllabic.mk 0x14FF Kind.syllable, Syllabic.mk 0x1501 Kind.syllable, Syllabic.mk 0x1503 Kind.syllable, Syllabic.mk 0x1526 Kind.syllable,
   Syllabic.mk 0x1528 Kind.syllable, Syllabic.mk 0x1529 Kind.syllable, Syllabic.mk 0x152A Kind.syllable, Syllabic.mk 0x152B Kind.syllable,
   Syllabic.mk 0x152D Kind.syllable, Syllabic.mk 0x152E Kind.syllable, Syllabic.mk 0x1530 Kind.syllable, Syllabic.mk 0x1532 Kind.syllable,
   Syllabic.mk 0x1534 Kind.syllable, Syllabic.mk 0x1536 Kind.syllable, Syllabic.mk 0x1538 Kind.syllable, Syllabic.mk 0x153A Kind.syllable,
   Syllabic.mk 0x153C Kind.syllable, Syllabic.mk 0x1552 Kind.consonant, Syllabic.mk 0x157D Kind.consonant, Syllabic.mk 0x15A7 Kind.syllable,
   Syllabic.mk 0x15A8 Kind.syllable, Syllabic.mk 0x15A9 Kind.syllable, Syllabic.mk 0x15AA Kind.syllable, Syllabic.mk 0x15AB Kind.syllable,
   Syllabic.mk 0x15AC Kind.syllable, Syllabic.mk 0x15AD Kind.syllable, Syllabic.mk 0x1677 Kind.syllable, Syllabic.mk 0x1678 Kind.syllable,
   Syllabic.mk 0x1679 Kind.syllable, Syllabic.mk 0x167A Kind.syllable, Syllabic.mk 0x167B Kind.syllable, Syllabic.mk 0x167C Kind.syllable,
   Syllabic.mk 0x167D Kind.syllable, Syllabic.mk 0x167E Kind.consonant, Syllabic.mk 0x18C7 Kind.syllable, Syllabic.mk 0x18C9 Kind.syllable,
   Syllabic.mk 0x18CB Kind.syllable, Syllabic.mk 0x18CD Kind.syllable]

/-- The concrete value of the standalone script's roster. -/
def oldRosterList : List Syllabic :=
  [Syllabic.mk 0x1401 Kind.vowel, Syllabic.mk 0x1403 Kind.vowel, Syllabic.mk 0x1404 Kind.vowel, Syllabic.mk 0x1405 Kind.vowel,
   Syllabic.mk 0x1406 Kind.vowel, Syllabic.mk 0x140A Kind.vowel, Syllabic.mk 0x140B Kind.vowel, Syllabic.mk 0x140D Kind.syllable,
   Syllabic.mk 0x140F Kind.syllable, Syllabic.mk 0x1411 Kind.syllable, Syllabic.mk 0x1413 Kind.syllable, Syllabic.mk 0x1415 Kind.syllable,
   Syllabic.mk 0x1418 Kind.syllable, Syllabic.mk 0x141A Kind.syllable, Syllabic.mk 0x141F Kind.consonant, Syllabic.mk 0x1420 Kind.consonant,
   Syllabic.mk 0x1422 Kind.consonant, Syllabic.mk 0x1423 Kind.consonant, Syllabic.mk 0x1424 Kind.consonant, Syllabic.mk 0x1426 Kind.consonant,
   Syllabic.mk 0x1428 Kind.consonant, Syllabic.mk 0x142F Kind.syllable, Syllabic.mk 0x1431 Kind.syllable, Syllabic.mk 0x1432 Kind.syllable,
   Syllabic.mk 0x1433 Kind.syllable, Syllabic.mk 0x1434 Kind.syllable, Syllabic.mk 0x1438 Kind.syllable, Syllabic.mk 0x1439 Kind.syllable,
   Syllabic.mk 0x143B Kind.syllable, Syllabic.mk 0x143D Kind.syllable, Syllabic.mk 0x143F Kind.syllable, Syllabic.mk 0x1441 Kind.syllable,
   Syllabic.mk 0x1443 Kind.syllable, Syllabic.mk 0x1445 Kind.syllable, Syllabic.mk 0x1447 Kind.syllable, Syllabic.mk 0x144A Kind.consonant,
   Syllabic.mk 0x144C Kind.syllable, Syllabic.mk 0x144E Kind.syllable, Syllabic.mk 0x144F Kind.syllable, Syllabic.mk 0x1450 Kind.syllable,
   Syllabic.mk 0x1451 Kind.syllable, Syllabic.mk 0x1455 Kind.syllable, Syllabic.mk 0x1456 Kind.syllable, Syllabic.mk 0x1458 Kind.syllable,
   Syllabic.mk 0x145A Kind.syllable, Syllabic.mk 0x145C Kind.syllable, Syllabic.mk 0x145E Kind.syllable, Syllabic.mk 0x1460 Kind.syllable,
   Syllabic.mk 0x1462 Kind.syllable, Syllabic.mk 0x1464 Kind.syllable, Syllabic.mk 0x146B Kind.syllable, Syllabic.mk 0x146D Kind.syllable,
   Syllabic.mk 0x146E Kind.syllable, Syllabic.mk 0x146F Kind.syllable, Syllabic.mk 0x1470 Kind.syllable, Syllabic.mk 0x1472 Kind.syllable,
   Syllabic.mk 0x1473 Kind.syllable, Syllabic.mk 0x1475 Kind.syllable, Syllabic.mk 0x1477 Kind.syllable, Syllabic.mk 0x1479 Kind.syllable,
   Syllabic.mk 0x147B Kind.syllable, Syllabic.mk 0x147D Kind.syllable, Syllabic.mk 0x147F Kind.syllable, Syllabic.mk 0x1481 Kind.syllable,
   Syllabic.mk 0x1489 Kind.syllable, Syllabic.mk 0x148B Kind.syllable, Syllabic.mk 0x148C Kind.syllable, Syllabic.mk 0x148D Kind.syllable,
   Syllabic.mk 0x148E Kind.syllable, Syllabic.mk 0x1490 Kind.syllable, Syllabic.mk 0x1491 Kind.syllable, Syllabic.mk 0x1493 Kind.syllable,
   Syllabic.mk 0x1495 Kind.syllable, Syllabic.mk 0x1497 Kind.syllable, Syllabic.mk 0x1499 Kind.syllable, Syllabic.mk 0x149B Kind.syllable,
   Syllabic.mk 0x149D Kind.syllable, Syllabic.mk 0x149F Kind.syllable, Syllabic.mk 0x14A3 Kind.syllable, Syllabic.mk 0x14A5 Kind.syllable,
   Syllabic.mk 0x14A6 Kind.syllable, Syllabic.mk 0x14A7 Kind.syllable, Syllabic.mk 0x14A8 Kind.syllable, Syllabic.mk 0x14AA Kind.syllable,
   Syllabic.mk 0x14AB Kind.syllable, Syllabic.mk 0x14AD Kind.syllable, Syllabic.mk 0x14AF Kind.syllable, Syllabic.mk 0x14B1 Kind.syllable,
   Syllabic.mk 0x14B3 Kind.syllable, Syllabic.mk 0x14B5 Kind.syllable, Syllabic.mk 0x14B7 Kind.syllable, Syllabic.mk 0x14B9 Kind.syllable,
   Syllabic.mk 0x14BC Kind.consonant, Syllabic.mk 0x14C0 Kind.syllable, Syllabic.mk 0x14C2 Kind.syllable, Syllabic.mk 0x14C3 Kind.syllable,
   Syllabic.mk 0x14C4 Kind.syllable, Syllabic.mk 0x14C5 Kind.syllable, Syllabic.mk 0x14C7 Kind.syllable, Syllabic.mk 0x14C8 Kind.syllable,
   Syllabic.mk 0x14CA Kind.syllable, Syllabic.mk 0x14CC Kind.syllable, Syllabic.mk 0x14CE Kind.syllable, Syllabic.mk 0x14EC Kind.consonant,
   Syllabic.mk 0x14ED Kind.syllable, Syllabic.mk 0x14EF Kind.syllable, Syllabic.mk 0x14F0 Kind.syllable, Syllabic.mk 0x14F1 Kind.syllable,
   Syllabic.mk 0x14F2 Kind.syllable, Syllabic.mk 0x14F4 Kind.syllable, Syllabic.mk 0x14F5 Kind.syllable, Syllabic.mk 0x14F7 Kind.syllable,
   Syllabic.mk 0x14F9 Kind.syllable, Syllabic.mk 0x14FB Kind.syllable, Syllabic.mk 0x14FD Kind.syllable, Syllabic.mk 0x14FF Kind.syllable,
   Syllabic.mk 0x1501 Kind.syllable, Syllabic.mk 0x1503 Kind.syllable, Syllabic.mk 0x1526 Kind.syllable, Syllabic.mk 0x1528 Kind.syllable,
   Syllabic.mk 0x1529 Kind.syllable, Syllabic.mk 0x152A Kind.syllable, Syllabic.mk 0x152B Kind.syllable, Syllabic.mk 0x152D Kind.syllable,
   Syllabic.mk 0x152E Kind.syllable, Syllabic.mk 0x1530 Kind.syllable, Syllabic.mk 0x1532 Kind.syllable, Syllabic.mk 0x1534 Kind.syllable,
   Syllabic.mk 0x1536 Kind.syllable, Syllabic.mk 0x1538 Kind.syllable, Syllabic.mk 0x153A Kind.syllable, Syllabic.mk 0x153C Kind.syllable,
   Syllabic.mk 0x1540 Kind.consonant, Syllabic.mk 0x1552 Kind.consonant, Syllabic.mk 0x157D Kind.consonant, Syllabic.mk 0x15A7 Kind.syllable,
   Syllabic.mk 0x15A8 Kind.syllable, Syllabic.mk 0x15A9 Kind.syllable, Syllabic.mk 0x15AA Kind.syllable, Syllabic.mk 0x15AB Kind.syllable,
   Syllabic.mk 0x15AC Kind.syllable, Syllabic.mk 0x15AD Kind.syllable, Syllabic.mk 0x15AE Kind.consonant, Syllabic.mk 0x1677 Kind.syllable,
   Syllabic.mk 0x1678 Kind.syllable, Syllabic.mk 0x1679 Kind.syllable, Syllabic.mk 0x167A Kind.syllable, Syllabic.mk 0x167B Kind.syllable,
   Syllabic.mk 0x167C Kind.syllable, Syllabic.mk 0x167D Kind.syllable, Syllabic.mk 0x18C6 Kind.syllable, Syllabic.mk 0x18C8 Kind.syllable,
   Syllabic.mk 0x18CA Kind.syllable, Syllabic.mk 0x18CC Kind.syllable]


/-- Modelled from the spec and claim wording of the variant resolver
(section 4.3): tiered priority over the three dialect markers, first
"WEST-CREE", only then "WOODS-CREE", only then "OJIBWAY", then the first
candidate with an empty descriptor token list, otherwise failure.  Written
from the specification text, to be compared with the source-derived
`chooseAppropriateVariant`. -/
def chooseVariantTiered (variants : List Cand) : Option Nat :=
  match variants.find? (fun c => c.2.contains "WEST-CREE") with
  | some c => some c.1
  | none =>
    match variants.find? (fun c => c.2.contains "WOODS-CREE") with
    | some c => some c.1
    | none =>
      match variants.find? (fun c => c.2.contains "OJIBWAY") with
      | some c => some c.1
      | none =>
        match variants.find? emptyDesc with
        | some c => some c.1
        | none => none

/-- Membership in Python's `string.printable`: the visible ASCII range plus
space and the five control characters tab, newline, carriage return,
vertical tab, form feed. -/
def asciiPrintable (c : Char) : Bool :=
  (0x21 ≤ c.toNat && c.toNat ≤ 0x7E) ||
    c ∈ [' ', '\t', '\n', '\r', '\u000B', '\u000C']

/-- The SRO spellings the spec closes the Consonant domain over. -/
def consonantSroSet : List String :=
  ["p", "t", "k", "c", "m", "n", "s", "h", "y", "th", "w", "hk", "l", "r"]

/-- The digraph-emission loop of `create_vim_digraphs`, which for every
roster entity in order reads its vim digraph (a propagated lookup failure
aborts), asserts it has exactly two characters, asserts it was not seen
before, asserts it is ASCII-printable, and accumulates it;
`.error "AssertionError"` models a failed assert. -/
def vimPass : List Syllabic → List String → Except String (List String)
  | [], seen => .ok seen
  | e :: rest, seen => do
    let d ← vimDigraphE e
    if d.length ≠ 2 then .error "AssertionError"
    else if seen.contains d then .error "AssertionError"
    else if !(d.toList.all asciiPrintable) then .error "AssertionError"
    else vimPass rest (seen ++ [d])

/-- The digraph-emission pass run over the built roster. -/
def createVimDigraphs : Except String (List String) :=
  vimPass buildRoster []

/-- The `in_plains_cree` flag of an entity as a plain Bool, false when the
underlying property raises. -/
def inPlainsCreeB (e : Syllabic) : Bool :=
  match inPlainsCreeE e with
  | .ok b => b
  | .error _ => false

/-- The non-empty vim digraphs of the roster entities whose
`in_plains_cree` flag is true, the domain of the claimed digraph
invariant. -/
def plainsDigraphs : List String :=
  (buildRoster.filter inPlainsCreeB).filterMap
    (fun e =>
      match vimDigraphE e with
      | .ok s => if s.isEmpty then none else some s
      | .error _ => none)

/-- Strict ascent of scalar values along a roster. -/
def scalarAscending : List Syllabic → Bool
  | [] => true
  | [_] => true
  | a :: b :: t => Nat.blt a.scalar b.scalar && scalarAscending (b :: t)

/-- `Syllabic.__eq__` between two syllabic entities: equality of scalar
values. -/
def syllabicEqB (a b : Syllabic) : Bool :=
  a.scalar == b.scalar

/-- `Syllabic.__lt__` between two syllabic entities: order of scalar
values. -/
def syllabicLtB (a b : Syllabic) : Bool :=
  decide (a.scalar < b.scalar)

/-- The claim-side long-vowel criterion: the shape key's final two
characters exist and are the same letter. -/
def keyEndsDoubled (n : Nat) : Bool :=
  match (keyChars n).reverse with
  | a :: b :: _ => a == b
  | _ => false


set_option maxRecDepth 1000000

/-- The libsyllabics build evaluates to the concrete roster; proved once and
shared so that later proofs need not re-run the build. -/
theorem buildRoster_eq : buildRoster = legacyRosterList := by decide

/-- The standalone script's build evaluates to its concrete roster. -/
theorem buildRosterOld_eq : buildRosterOld = oldRosterList := by decide


/-- List.find? is the head of the filtered list. -/
theorem find?_eq_head?_filter (p : α → Bool) (l : List α) :
    l.find? p = (l.filter p).head? := by
  induction l with
  | nil => rfl
  | cons a t ih =>
    by_cases h : p a
    · rw [List.find?_cons_of_pos _ h, List.filter_cons_of_pos h]
      rfl
    · rw [List.find?_cons_of_neg _ h, List.filter_cons_of_neg h, ih]

theorem find?_perm_of_countP_le_one (p : α → Bool) {l l' : List α}
    (hp : l.Perm l') (hc : l'.countP p ≤ 1) : l.find? p = l'.find? p := by
  rw [find?_eq_head?_filter, find?_eq_head?_filter]
  have hf : (l.filter p).Perm (l'.filter p) := hp.filter p
  rw [List.countP_eq_length_filter] at hc
  match hfl : l'.filter p, hc with
  | [], _ =>
    rw [hfl] at hf
    rw [List.perm_nil.mp hf]
  | [a], _ =>
    rw [hfl] at hf
    rw [List.perm_singleton.mp hf]
  | a :: b :: t, hc => simp [hfl] at hc

theorem choose_perm (ms : List String) {l l' : List Cand} (hp : l.Perm l')
    (h1 : l'.countP (markerHit ms) ≤ 1) (h2 : l'.countP emptyDesc ≤ 1) :
    chooseAppropriateVariant ms l = chooseAppropriateVariant ms l' := by
  unfold chooseAppropriateVariant
  rw [find?_perm_of_countP_le_one (markerHit ms) hp h1,
    find?_perm_of_countP_le_one emptyDesc hp h2]

theorem resolveGroup_perm (ms : List String) {l l' : List Cand}
    (hp : l.Perm l') (h1 : l'.countP (markerHit ms) ≤ 1)
    (h2 : l'.countP emptyDesc ≤ 1) :
    resolveGroup ms l = resolveGroup ms l' := by
  match l, hp.length_eq, hp with
  | [], hlen, hp =>
    rw [List.perm_nil.mp hp.symm]
  | [a], hlen, hp =>
    rw [List.perm_singleton.mp hp.symm]
  | a :: b :: t, hlen, hp =>
    match l', hlen with
    | c :: d :: u, _ =>
      show resolveGroup ms (a :: b :: t) = resolveGroup ms (c :: d :: u)
      unfold resolveGroup
      simp only [List.length_cons]
      rw [if_pos (by omega), if_pos (by omega), choose_perm ms hp h1 h2]

theorem resolveAll_perm (ms : List String) :
    ∀ {gs gs' : List (String × List Cand)},
      List.Forall₂
        (fun g g' => g.2.Perm g'.2 ∧ g'.2.countP (markerHit ms) ≤ 1 ∧
          g'.2.countP emptyDesc ≤ 1) gs gs' →
      resolveAll ms gs = resolveAll ms gs'
  | [], [], _ => rfl
  | g :: gs, g' :: gs', List.Forall₂.cons ⟨hp, h1, h2⟩ htail => by
    show (do
        let pick ← resolveGroup ms g.2
        let more ← resolveAll ms gs
        match pick with
        | some x => pure (x :: more)
        | none => pure more) = _
    rw [resolveGroup_perm ms hp h1 h2, resolveAll_perm ms htail]
    show _ = (do
        let pick ← resolveGroup ms g'.2
        let more ← resolveAll ms gs'
        match pick with
        | some x => pure (x :: more)
        | none => pure more)
    rfl

/-- The at-most-one conditions hold of every shape-key group the
libsyllabics classification produces: no group carries two marker-bearing
candidates, none carries two unmarked candidates. -/
theorem legacyGroups_cond :
    classifyLegacy.groups.all
      (fun g => Nat.ble (g.2.countP (markerHit legacyMarkers)) 1 &&
        Nat.ble (g.2.countP emptyDesc) 1) = true := by decide

theorem forall₂_shuffle (ms : List String)
    (f : String → List Cand → List Cand)
    (hf : ∀ k c, (f k c).Perm c) :
    ∀ gs : List (String × List Cand),
      gs.all (fun g => Nat.ble (g.2.countP (markerHit ms)) 1 &&
        Nat.ble (g.2.countP emptyDesc) 1) = true →
      List.Forall₂
        (fun g g' => g.2.Perm g'.2 ∧ g'.2.countP (markerHit ms) ≤ 1 ∧
          g'.2.countP emptyDesc ≤ 1)
        (gs.map (fun g => (g.1, f g.1 g.2))) gs
  | [], _ => List.Forall₂.nil
  | g :: gs, h => by
    rw [List.all_cons, Bool.and_eq_true, Bool.and_eq_true] at h
    exact List.Forall₂.cons
      ⟨hf g.1 g.2, Nat.le_of_ble_eq_true h.1.1, Nat.le_of_ble_eq_true h.1.2⟩
      (forall₂_shuffle ms f hf gs h.2)

/-- When every p-satisfier also satisfies q and q holds of at most one
element, the first p-satisfier is the first q-satisfier when that one
satisfies p, and there is none otherwise. -/
theorem find?_of_imp_of_le_one (p q : α → Bool)
    (hpq : ∀ a, p a = true → q a = true) :
    ∀ l : List α, l.countP q ≤ 1 →
      l.find? p = (l.find? q).bind (fun c => if p c then some c else none)
  | [], _ => rfl
  | a :: l, h => by
    by_cases hq : q a
    · rw [List.find?_cons_of_pos _ hq]
      by_cases hp : p a
      · rw [List.find?_cons_of_pos _ hp]
        simp [hp]
      · rw [List.find?_cons_of_neg _ hp]
        have hcq : l.countP q = 0 := by
          rw [List.countP_cons_of_pos q l hq] at h
          omega
        have hnone : l.find? p = none := by
          rw [List.find?_eq_none]
          intro x hx hpx
          have hqx := hpq x hpx
          have : 0 < l.countP q := List.countP_pos_iff.mpr ⟨x, hx, hqx⟩
          omega
        simp [hnone, hp]
    · have hp : ¬ p a = true := fun hpa => hq (hpq a hpa)
      rw [List.find?_cons_of_neg _ hp, List.find?_cons_of_neg _ hq]
      exact find?_of_imp_of_le_one p q hpq l
        (by rw [List.countP_cons_of_neg q l hq] at h; exact h)

theorem markerHit_legacy (c : Cand) :
    markerHit legacyMarkers c =
      (c.2.contains "WEST-CREE" || c.2.contains "WOODS-CREE" ||
        c.2.contains "OJIBWAY") := by
  simp [markerHit, legacyMarkers, List.any_cons, List.any_nil, Bool.or_assoc]

theorem choose_eq_tiered {vs : List Cand}
    (h : vs.countP (markerHit legacyMarkers) ≤ 1) :
    chooseAppropriateVariant legacyMarkers vs = chooseVariantTiered vs := by
  have himp : ∀ (m : String), m ∈ legacyMarkers →
      ∀ c : Cand, c.2.contains m = true → markerHit legacyMarkers c = true := by
    intro m hm c hc
    unfold markerHit
    exact List.any_of_mem hm hc
  have hW := find?_of_imp_of_le_one (fun c : Cand => c.2.contains "WEST-CREE")
    (markerHit legacyMarkers) (himp _ (by simp [legacyMarkers])) vs h
  have hWo := find?_of_imp_of_le_one (fun c : Cand => c.2.contains "WOODS-CREE")
    (markerHit legacyMarkers) (himp _ (by simp [legacyMarkers])) vs h
  have hO := find?_of_imp_of_le_one (fun c : Cand => c.2.contains "OJIBWAY")
    (markerHit legacyMarkers) (himp _ (by simp [legacyMarkers])) vs h
  unfold chooseAppropriateVariant chooseVariantTiered
  cases hfind : vs.find? (markerHit legacyMarkers) with
  | none =>
    rw [hfind] at hW hWo hO
    simp only [Option.bind] at hW hWo hO
    rw [hW, hWo, hO]
  | some c =>
    have hc := List.find?_some hfind
    rw [markerHit_legacy] at hc
    rw [hfind] at hW hWo hO
    simp only [Option.bind] at hW hWo hO
    by_cases h1 : c.2.contains "WEST-CREE"
    · rw [hW, if_pos h1]
    · rw [hW, if_neg h1]
      by_cases h2 : c.2.contains "WOODS-CREE"
      · rw [hWo, if_pos h2]
      · rw [hWo, if_neg h2]
        by_cases h3 : c.2.contains "OJIBWAY"
        · rw [hO, if_pos h3]
        · simp only [Bool.not_eq_true] at h1 h2 h3
          rw [h1, h2, h3] at hc
          simp at hc

/-- Claim C1 (corrected), counterexample: the variant resolver does not
select by tiered marker priority.  On a candidate set holding a
WOODS-CREE-marked candidate before a WEST-CREE-marked one, the source
resolver returns the WOODS-CREE candidate (glyph 10) because its first loop
tests the three markers as one disjunction in candidate order, while the
claimed tiered policy would return the WEST-CREE candidate (glyph 20). -/
theorem c1_counterexample :
    chooseAppropriateVariant legacyMarkers
        [(10, ["WOODS-CREE"]), (20, ["WEST-CREE"])] = some 10 ∧
    chooseVariantTiered [(10, ["WOODS-CREE"]), (20, ["WEST-CREE"])] =
      some 20 :=
  ⟨rfl, rfl⟩

/-- Claim C1 (amended): the resolver selects the first candidate in
iteration order whose descriptor tokens contain any of WEST-CREE,
WOODS-CREE or OJIBWAY with no priority among the three markers, then the
first candidate with an empty descriptor list, and otherwise fails; whenever
a candidate set carries at most one marker-bearing candidate this selection
coincides with the claimed tiered policy, and every shape-key candidate set
of the actual build satisfies that bound, so every selection made during
the build agrees with the tiered policy. -/
theorem c1_amended :
    (∀ vs : List Cand, vs.countP (markerHit legacyMarkers) ≤ 1 →
        chooseAppropriateVariant legacyMarkers vs = chooseVariantTiered vs) ∧
    classifyLegacy.groups.all
      (fun g => Nat.ble (g.2.countP (markerHit legacyMarkers)) 1 &&
        (chooseAppropriateVariant legacyMarkers g.2 ==
          chooseVariantTiered g.2)) = true := by
  constructor
  · intro vs h
    exact choose_eq_tiered h
  · decide

/-- Claim C1 witness: the amended equivalence applied at a concrete
two-candidate set with a lone marker-bearing candidate. -/
theorem c1_amended_witness :
    chooseAppropriateVariant legacyMarkers [(10, ["WEST-CREE"]), (20, [])] =
      chooseVariantTiered [(10, ["WEST-CREE"]), (20, [])] :=
  c1_amended.1 [(10, ["WEST-CREE"]), (20, [])] (by decide)

set_option maxHeartbeats 3200000 in
/-- Claim C2 (code bug): over the built roster the claimed invariant holds —
among entities whose in_plains_cree flag is true, the non-empty vim digraphs
are pairwise distinct and each is exactly two printable ASCII characters —
but the emission pass does not check the invariant in that restricted form:
it asserts that every roster entity's digraph has exactly two characters,
and the th-series syllable U+15A7, whose digraph is deliberately empty and
whose in_plains_cree flag is false, makes the pass abort with an assertion
failure even though the claimed invariant is satisfied. -/
theorem c2_digraph_invariant_vs_emission :
    plainsDigraphs.Nodup ∧
    plainsDigraphs.all
      (fun d => d.length == 2 && d.toList.all asciiPrintable) = true ∧
    Syllabic.mk 0x15A7 Kind.syllable ∈ buildRoster ∧
    inPlainsCreeB (Syllabic.mk 0x15A7 Kind.syllable) = false ∧
    vimDigraphE (Syllabic.mk 0x15A7 Kind.syllable) = .ok "" ∧
    createVimDigraphs = .error "AssertionError" := by
  refine ⟨?_, ?_, ?_, rfl, rfl, ?_⟩
  · unfold plainsDigraphs
    rw [buildRoster_eq]
    decide
  · unfold plainsDigraphs
    rw [buildRoster_eq]
    decide
  · rw [buildRoster_eq]
    decide
  · unfold createVimDigraphs
    rw [buildRoster_eq]
    decide

/-- Claim C3: the build is deterministic.  A run of the build corresponds to
one choice of iteration order for each shape-key candidate set (Python holds
them as hash-randomized sets); any two such choices yield identical rosters
— same success, same length, same entities in the same order — because every
candidate set of this build carries at most one marker-bearing and at most
one unmarked candidate, so the resolver picks the same glyph for every
shape key on every run. -/
theorem c3_build_deterministic (f g : String → List Cand → List Cand)
    (hf : ∀ k c, (f k c).Perm c) (hg : ∀ k c, (g k c).Perm c) :
    buildRosterWithE f = buildRosterWithE g := by
  have hform : ∀ h : String → List Cand → List Cand,
      (∀ k c, (h k c).Perm c) →
      resolveAll legacyMarkers
          (classifyLegacy.groups.map (fun x => (x.1, h x.1 x.2))) =
        resolveAll legacyMarkers classifyLegacy.groups := fun h hh =>
    resolveAll_perm legacyMarkers
      (forall₂_shuffle legacyMarkers h hh classifyLegacy.groups
        legacyGroups_cond)
  show (do
      let resolved ← resolveAll legacyMarkers
        (classifyLegacy.groups.map (fun x => (x.1, f x.1 x.2)))
      pure (assemble classifyLegacy.consPoints resolved) :
      Except String (List Syllabic)) =
    (do
      let resolved ← resolveAll legacyMarkers
        (classifyLegacy.groups.map (fun x => (x.1, g x.1 x.2)))
      pure (assemble classifyLegacy.consPoints resolved))
  rw [hform f hf, hform g hg]

/-- Claim C3 witness: reversing every candidate set's iteration order leaves
the build output unchanged. -/
theorem c3_build_deterministic_witness :
    buildRosterWithE (fun _ c => c.reverse) =
      buildRosterWithE (fun _ c => c) :=
  c3_build_deterministic _ _ (fun _ c => List.reverse_perm c)
    (fun _ c => List.Perm.refl c)

/-- Claim C4 (corrected), counterexample: under the standalone script the
code point U+15AE CANADIAN SYLLABICS TH-CREE TH, whose descriptor holds the
token "TH-CREE" and ends in the bare token "TH", is not skipped: its joined
descriptor matches that script's consonant-final table (key "TH-CREE TH"),
so it is accepted as a Consonant and appears in that script's roster. -/
theorem c4_counterexample :
    (nameTokens 0x15AE).drop 2 = ["TH-CREE", "TH"] ∧
    (oldTable.lookup "TH-CREE TH").isSome = true ∧
    Syllabic.mk 0x15AE Kind.consonant ∈ buildRosterOld := by
  refine ⟨rfl, rfl, ?_⟩
  rw [buildRosterOld_eq]
  decide

/-- Claim C4 (amended): in the libsyllabics classifier every code point
whose descriptor holds the token "TH-CREE" and whose final token is the
bare "TH" is skipped entirely and never appears in the libsyllabics roster;
the standalone script instead accepts such a glyph through its
consonant-final table. -/
theorem c4_amended :
    ucdNames.all (fun p =>
      !((p.2.drop 2).contains "TH-CREE" &&
          ((p.2.drop 2).getLastD "" == "TH")) ||
        buildRoster.all (fun e => e.scalar != p.1)) = true := by
  rw [buildRoster_eq]
  decide

/-- Claim C5 (code bug): the libsyllabics classification accepts U+167E
CANADIAN SYLLABICS WOODS-CREE FINAL TH as a Consonant — its description is
a key of the classification table — but the separate table inside
`Consonant.sro` lacks that key, so reading that roster entity's SRO
spelling raises KeyError instead of succeeding; every other Consonant's SRO
spelling lies in the claimed set, and every Syllable or Vowel entity's
vowel is one of a, i, o, e. -/
theorem c5_domain_closure_vs_missing_key :
    Syllabic.mk 0x167E Kind.consonant ∈ buildRoster ∧
    descStr 0x167E = "WOODS-CREE FINAL TH" ∧
    (legacyClassTable.lookup "WOODS-CREE FINAL TH").isSome = true ∧
    (typesSroTable.lookup "WOODS-CREE FINAL TH").isSome = false ∧
    consonantSroE 0x167E = .error "KeyError" ∧
    buildRoster.all (fun e =>
      match e.kind with
      | Kind.consonant =>
        e.scalar == 0x167E ||
          (match consonantSroE e.scalar with
           | .ok s => consonantSroSet.contains s
           | .error _ => false)
      | _ =>
        (['a', 'i', 'o', 'e'].contains (vowelChar e.scalar)) &&
          vowelOk e.scalar) = true := by
  refine ⟨?_, rfl, rfl, rfl, rfl, ?_⟩
  · rw [buildRoster_eq]
    decide
  · rw [buildRoster_eq]
    decide

/-- Claim C6 (code bug): in libsyllabics every Syllable's qwerty mnemonic is
its consonant, then "w" exactly when the syllable is labialized, then its
vowel letter doubled exactly when the vowel is long and not e; the
standalone script's `Syllable.qwerty_mnemonic` omits the labialization "w",
so for the roster syllable U+147F (kwa) it yields "ka" — colliding with the
mnemonic of plain ka — where the claim requires "kwa". -/
theorem c6_qwerty_mnemonic :
    buildRoster.all (fun e =>
      match e.kind with
      | Kind.syllable =>
        qwertyMnemonicSyllable e.scalar ==
          syllableConsonant e.scalar ++
            (if isLabialized e.scalar then "w" else "") ++
            (if hasLongVowel e.scalar && vowelChar e.scalar != 'e'
             then String.mk [vowelChar e.scalar, vowelChar e.scalar]
             else String.mk [vowelChar e.scalar])
      | _ => true) = true ∧
    Syllabic.mk 0x147F Kind.syllable ∈ buildRosterOld ∧
    isLabialized 0x147F = true ∧
    qwertyMnemonicSyllableOld 0x147F = "ka" ∧
    qwertyMnemonicSyllable 0x147F = "kwa" := by
  refine ⟨?_, ?_, rfl, rfl, rfl⟩
  · rw [buildRoster_eq]
    decide
  · rw [buildRosterOld_eq]
    decide

/-- Claim C7 (code bug): for the "hk" final the bare-consonant accessor
fails with the deliberate AttributeError, and for every other Consonant
entity of the roster except U+167E it returns the SRO spelling; the roster
entity U+167E however fails with a propagated KeyError even though its
spelling is not "hk", contradicting the claim that every other Consonant's
accessor succeeds. -/
theorem c7_consonant_accessor :
    consonantSroE 0x157D = .ok "hk" ∧
    consonantAccessorE 0x157D = .error "AttributeError" ∧
    Syllabic.mk 0x157D Kind.consonant ∈ buildRoster ∧
    Syllabic.mk 0x167E Kind.consonant ∈ buildRoster ∧
    consonantAccessorE 0x167E = .error "KeyError" ∧
    buildRoster.all (fun e =>
      match e.kind with
      | Kind.consonant =>
        e.scalar == 0x157D || e.scalar == 0x167E ||
          (match consonantSroE e.scalar, consonantAccessorE e.scalar with
           | .ok s, .ok s2 => s == s2
           | _, _ => false)
      | _ => true) = true := by
  refine ⟨rfl, rfl, ?_, ?_, rfl, ?_⟩
  · rw [buildRoster_eq]
    decide
  · rw [buildRoster_eq]
    decide
  · rw [buildRoster_eq]
    decide

/-- Claim C8: the built roster ascends strictly in scalar value, so no two
entries share one; and the source's order and equality relations on
entities are exactly the order and equality of their scalar values. -/
theorem c8_order_invariant :
    scalarAscending buildRoster = true ∧
    (buildRoster.map (fun e => e.scalar)).Nodup ∧
    (∀ a b : Syllabic, syllabicEqB a b = true ↔ a.scalar = b.scalar) ∧
    (∀ a b : Syllabic, syllabicLtB a b = true ↔ a.scalar < b.scalar) := by
  refine ⟨?_, ?_, ?_, ?_⟩
  · rw [buildRoster_eq]
    decide
  · rw [buildRoster_eq]
    decide
  · intro a b
    unfold syllabicEqB
    exact beq_iff_eq
  · intro a b
    unfold syllabicLtB
    exact decide_eq_true_iff

/-- Claim C9: for every Syllable or Vowel entity of the roster,
has_long_vowel holds exactly when the vowel is e or the shape key's final
two characters are the same letter; and the vowel-with-length spelling is
the bare vowel letter when short and, when long, the composition of the
vowel with the combining circumflex, NFC-normalized to a single precomposed
code point. -/
theorem c9_vowel_length_law :
    buildRoster.all (fun e =>
      match e.kind with
      | Kind.consonant => true
      | _ =>
        (hasLongVowel e.scalar ==
          ((vowelChar e.scalar == 'e') || keyEndsDoubled e.scalar)) &&
        (if hasLongVowel e.scalar
         then (vowelWithLength e.scalar ==
             nfcCircumflex (vowelChar e.scalar)) &&
           ((vowelWithLength e.scalar).length == 1)
         else vowelWithLength e.scalar ==
           String.mk [vowelChar e.scalar])) = true := by
  rw [buildRoster_eq]
  decide

/-- Claim C10: for every Syllable entity of the roster the has_w flag is the
disjunction of labialization and the onset consonant itself being "w"; the
roster syllable U+1418 (wa) shows the flag can be true for a syllable whose
SRO spelling holds no glide w after the consonant: it is not labialized,
its consonant is "w", and its SRO spelling is exactly "wa". -/
theorem c10_has_w :
    buildRoster.all (fun e =>
      match e.kind with
      | Kind.syllable =>
        hasW e.scalar ==
          (isLabialized e.scalar || syllableConsonant e.scalar == "w")
      | _ => true) = true ∧
    Syllabic.mk 0x1418 Kind.syllable ∈ buildRoster ∧
    hasW 0x1418 = true ∧
    isLabialized 0x1418 = false ∧
    syllableConsonant 0x1418 = "w" ∧
    sroSyllable 0x1418 = "wa" := by
  refine ⟨?_, ?_, rfl, rfl, rfl, rfl⟩
  · rw [buildRoster_eq]
    decide
  · rw [buildRoster_eq]
    decide
